import Mathlib

/-
Verification of the USB device class middleware of the STM32_XPD repository:
a shallow embedding of the CDC, DFU and RNDIS class drivers
(src/Middlewares/STM32_USB_Device_Library/Class/{CDC,DFU,RNDIS}) in Lean 4,
with theorems about the properties stated in the specification.

Modelling conventions:
- machine integers are Nat, with an explicit percent 2 pow w reduction exactly
  where the C arithmetic can wrap;
- the external collaborators (endpoint primitive layer, DFU backing medium,
  RNDIS user interface) are parameters; their invocations are recorded as
  explicit effect values in the order the C code performs the calls;
- pointer-typed values that are only stored and handed back (buffer pointers)
  are modelled as Nat addresses, with Option Nat where NULL is a possible value;
- each entry point that the device core calls with a possibly-NULL class handle
  (pdev->pClassData) takes an Option handle; where the C code would read or
  write through the NULL handle, the model returns CCallResult.nullDeref.
-/

namespace STM32XPD

/-- Status codes of the USB device library (usbd_def.h, not part of src;
modelled from the spec: all operations return a binary success or failure
status, plus the distinct Busy answer for transmit contention). -/
inductive USBD_StatusTypeDef where
  | usbd_ok
  | usbd_busy
  | usbd_fail
deriving DecidableEq, Repr

/-- Modelled from the spec: the device core (usbd_core.c, not part of src)
treats the status returned by a class Init callback as a class activation
failure exactly when it is not USBD_OK. -/
def coreTreatsAsActivationFailure (s : USBD_StatusTypeDef) : Bool :=
  s != USBD_StatusTypeDef.usbd_ok

/-- Decoded control request, mirroring USBD_SetupReqTypedef (usbd_def.h). -/
structure USBD_SetupReqTypedef where
  bmRequest : Nat
  bRequest : Nat
  wValue : Nat
  wIndex : Nat
  wLength : Nat
deriving DecidableEq, Repr

/-- USB request type mask and codes (usbd_def.h, not part of src; modelled
from the spec and the USB 2.0 standard values). -/
def USB_REQ_TYPE_MASK : Nat := 0x60

def USB_REQ_TYPE_STANDARD : Nat := 0x00

def USB_REQ_TYPE_CLASS : Nat := 0x20

def USB_REQ_GET_DESCRIPTOR : Nat := 0x06

def USB_REQ_GET_INTERFACE : Nat := 0x0A

def USB_REQ_SET_INTERFACE : Nat := 0x0B

/-- Result of a class driver entry point invoked on a possibly-NULL class
handle: nullDeref marks the paths where the C code dereferences the NULL
pointer; ok carries the new handle option, the recorded external calls and
the returned status. -/
inductive CCallResult (η : Type) (ε : Type) where
  | nullDeref : CCallResult η ε
  | ok : Option η → List ε → USBD_StatusTypeDef → CCallResult η ε
deriving DecidableEq, Repr

/-- Reduction of a C uint32 computation. -/
def u32 (n : Nat) : Nat := n % 2 ^ 32

/-!  DFU class driver (src/Middlewares/STM32_USB_Device_Library/Class/DFU/Src/usbd_dfu.c).
The companion header usbd_dfu.h is not part of src; its state, error and
command constants are modelled from the spec (the driver implements the USB
DFU class V1.1 state machine, whose wire values are fixed by that standard). -/

/-- Modelled from the spec: DFU protocol state dfuIDLE (usbd_dfu.h). -/
def DFU_STATE_IDLE : Nat := 2

/-- Modelled from the spec: DFU protocol state dfuDNLOAD-SYNC (usbd_dfu.h). -/
def DFU_STATE_DNLOAD_SYNC : Nat := 3

/-- Modelled from the spec: DFU protocol state dfuDNBUSY (usbd_dfu.h). -/
def DFU_STATE_DNLOAD_BUSY : Nat := 4

/-- Modelled from the spec: DFU protocol state dfuDNLOAD-IDLE (usbd_dfu.h). -/
def DFU_STATE_DNLOAD_IDLE : Nat := 5

/-- Modelled from the spec: DFU protocol state dfuMANIFEST-SYNC (usbd_dfu.h). -/
def DFU_STATE_MANIFEST_SYNC : Nat := 6

/-- Modelled from the spec: DFU protocol state dfuMANIFEST (usbd_dfu.h). -/
def DFU_STATE_MANIFEST : Nat := 7

/-- Modelled from the spec: DFU protocol state dfuMANIFEST-WAIT-RESET (usbd_dfu.h). -/
def DFU_STATE_MANIFEST_WAIT_RESET : Nat := 8

/-- Modelled from the spec: DFU protocol state dfuUPLOAD-IDLE (usbd_dfu.h). -/
def DFU_STATE_UPLOAD_IDLE : Nat := 9

/-- Modelled from the spec: DFU protocol state dfuERROR (usbd_dfu.h). -/
def DFU_STATE_ERROR : Nat := 10

/-- Modelled from the spec: DFU status code OK (usbd_dfu.h). -/
def DFU_ERROR_NONE : Nat := 0x00

/-- Modelled from the spec: DFU status code errUNKNOWN (usbd_dfu.h). -/
def DFU_ERROR_UNKNOWN : Nat := 0x0E

/-- Modelled from the spec: DFU status code errSTALLEDPKT (usbd_dfu.h). -/
def DFU_ERROR_STALLEDPKT : Nat := 0x0F

/-- Modelled from the spec: DFU class request codes (usbd_dfu.h; values fixed
by the DFU 1.1 standard). -/
def DFU_DETACH : Nat := 0

def DFU_DOWNLOAD : Nat := 1

def DFU_UPLOAD : Nat := 2

def DFU_GETSTATUS : Nat := 3

def DFU_CLEARSTATUS : Nat := 4

def DFU_GETSTATE : Nat := 5

def DFU_ABORT : Nat := 6

/-- Modelled from the spec: ST DFU sub-protocol vendor command bytes
(usbd_dfu.h): get-commands, set-address-pointer, erase. -/
def DFU_CMD_GETCOMMANDS : Nat := 0x00

def DFU_CMD_SETADDRESSPOINTER : Nat := 0x21

def DFU_CMD_ERASE : Nat := 0x41

/-- Modelled from the spec: manifestation sub-states (usbd_dfu.h). -/
def DFU_MANIFEST_COMPLETE : Nat := 0

def DFU_MANIFEST_IN_PROGRESS : Nat := 1

/-- Modelled from the spec: media GetStatus operation selectors (usbd_dfu.h). -/
def DFU_MEDIA_PROGRAM : Nat := 0

def DFU_MEDIA_ERASE : Nat := 1

/-- Transfer size configured for the control data stage; usbd_conf.h is not
part of src, the value 1024 is fixed by the spec and by the configuration
descriptor comment in usbd_dfu.c (TransferSize = 1024 Byte). -/
def USBD_DFU_XFER_SIZE : Nat := 1024

/-- Number of alternate DFU interface settings; usbd_conf.h is not part of
src, the configuration descriptor of usbd_dfu.c instantiates one interface. -/
def USBD_DFU_MAX_ITF_NUM : Nat := 1

/-- Bus detach support flag; usbd_conf.h is not part of src, the descriptor
comment in usbd_dfu.c documents bitWillDetach = 1. -/
def USBD_DFU_DETACH_SUPPORT : Nat := 1

/-- DFU_MANIFEST_TOLERANT() of usbd_dfu.c reads bit 0x04 of the functional
descriptor bmAttributes byte of USBD_DFU_CfgDesc; that byte is assembled as
DOWNLOAD | (UPLOAD shl 1) | (DETACH shl 3), so bit 2 is always clear. -/
def DFU_MANIFEST_TOLERANT : Bool := false

/-- Size of the DFU functional descriptor, USB_DFU_DESC_SIZ (usbd_dfu.h). -/
def USB_DFU_DESC_SIZ : Nat := 9

/-- The fixed six byte wire status record dev_status[6] of the DFU handle:
[error code, poll-timeout low, mid, high, state, string index]. -/
structure DfuStatusRecord where
  b0 : Nat
  b1 : Nat
  b2 : Nat
  b3 : Nat
  b4 : Nat
  b5 : Nat
deriving DecidableEq, Repr

/-- USBD_DFU_HandleTypeDef (usbd_dfu.h): the fields that usbd_dfu.c uses.
The scratch buffer is the byte list of its current contents. -/
structure USBD_DFU_HandleTypeDef where
  alt_setting : Nat
  buffer : List Nat
  wblock_num : Nat
  wlength : Nat
  data_ptr : Nat
  manif_state : Nat
  dev_state : Nat
  dev_status : DfuStatusRecord
deriving DecidableEq, Repr

/-- USBD_DFU_MediaTypeDef: the backing medium callback table registered by
the user. Presence booleans model the NULL checks that usbd_dfu.c performs
on each callback; ReadData gives the bytes a Read callback stores into the
destination; StatusPoll models the GetStatus callback, which per the spec
fills the poll-timeout field (bytes 1..3) of the six byte status record. -/
structure USBD_DFU_MediaTypeDef where
  StartAddress : Nat
  InitPresent : Bool
  DeInitPresent : Bool
  ErasePresent : Bool
  WritePresent : Bool
  ReadPresent : Bool
  GetStatusPresent : Bool
  ReadData : Nat → Nat → List Nat
  StatusPoll : Nat → Nat → Nat × Nat × Nat

/-- External calls performed by the DFU driver, in program order. -/
inductive DfuEffect where
  | ctlError
  | ctlSendData (bytes : List Nat) (len : Nat)
  | ctlPrepareRx (len : Nat)
  | ctlSendDesc (len : Nat)
  | mediaInit
  | mediaDeInit
  | mediaErase (addr : Nat)
  | mediaWrite (addr : Nat) (data : List Nat) (len : Nat)
  | mediaRead (addr : Nat) (len : Nat)
  | mediaGetStatus (addr : Nat) (op : Nat)
  | usbdStop
  | usbdStart
  | usbdDelay (ms : Nat)
  | usbdDeInit
  | systemReset
deriving DecidableEq, Repr

/-- Block address computation shared by the download write path
(usbd_dfu.c line 461) and the upload read path (line 707):
addr = ((wblock_num - 2) * USBD_DFU_XFER_SIZE) + data_ptr, in uint32. -/
def DFU_block_addr (wblock_num data_ptr : Nat) : Nat :=
  u32 ((wblock_num - 2) * USBD_DFU_XFER_SIZE + data_ptr)

/-- Little endian 4 byte address decode of the set-address-pointer and erase
vendor commands (usbd_dfu.c lines 429-439): buffer bytes 1..4. -/
def DFU_addr_from_buffer (buf : List Nat) : Nat :=
  u32 (buf.getD 1 0 + buf.getD 2 0 * 2 ^ 8 + buf.getD 3 0 * 2 ^ 16 + buf.getD 4 0 * 2 ^ 24)

/-- The byte list of the status record, as sent by USBD_CtlSendData. -/
def DfuStatusRecord.bytes (s : DfuStatusRecord) : List Nat :=
  [s.b0, s.b1, s.b2, s.b3, s.b4, s.b5]

/-- Writes a prefix of a fixed capacity buffer, keeping the tail
(the C memcpy into buffer.d8 of len bytes). -/
def listOverwrite (dst src : List Nat) : List Nat :=
  src ++ dst.drop src.length

/-- USBD_DFU_Init (usbd_dfu.c lines 241-274): allocate the handle (allocOk
models the USBD_malloc outcome; buf0 is the uninitialized scratch buffer
content of the fresh allocation), initialize its fields, call the media Init
hook when present. Returns USBD_OK on both paths. -/
def USBD_DFU_Init (media : USBD_DFU_MediaTypeDef) (allocOk : Bool) (buf0 : List Nat) :
    Option USBD_DFU_HandleTypeDef × USBD_StatusTypeDef × List DfuEffect :=
  if allocOk then
    (some { alt_setting := 0, buffer := buf0, wblock_num := 0, wlength := 0,
            data_ptr := media.StartAddress, manif_state := DFU_MANIFEST_COMPLETE,
            dev_state := DFU_STATE_IDLE,
            dev_status := ⟨DFU_ERROR_NONE, 0, 0, 0, DFU_STATE_IDLE, 0⟩ },
     USBD_StatusTypeDef.usbd_ok,
     if media.InitPresent then [DfuEffect.mediaInit] else [])
  else
    (none, USBD_StatusTypeDef.usbd_ok, [])

/-- USBD_DFU_DeInit (usbd_dfu.c lines 283-298). -/
def USBD_DFU_DeInit (media : USBD_DFU_MediaTypeDef)
    (ph : Option USBD_DFU_HandleTypeDef) :
    Option USBD_DFU_HandleTypeDef × USBD_StatusTypeDef × List DfuEffect :=
  match ph with
  | none => (none, USBD_StatusTypeDef.usbd_ok, [])
  | some _ =>
      (none, USBD_StatusTypeDef.usbd_ok,
       if media.DeInitPresent then [DfuEffect.mediaDeInit] else [])

/-- DFU_Detach (usbd_dfu.c lines 557-593): reset to IDLE from the abortable
states, then detach (USBD_DFU_DETACH_SUPPORT is nonzero) or delay. -/
def DFU_Detach (h : USBD_DFU_HandleTypeDef) (wValue : Nat) :
    USBD_DFU_HandleTypeDef × List DfuEffect :=
  let h' :=
    if h.dev_state = DFU_STATE_IDLE ∨ h.dev_state = DFU_STATE_DNLOAD_SYNC ∨
       h.dev_state = DFU_STATE_DNLOAD_IDLE ∨ h.dev_state = DFU_STATE_MANIFEST_SYNC ∨
       h.dev_state = DFU_STATE_UPLOAD_IDLE then
      { h with
        dev_state := DFU_STATE_IDLE
        dev_status := ⟨DFU_ERROR_NONE, 0, 0, 0, DFU_STATE_IDLE, 0⟩
        wblock_num := 0
        wlength := 0 }
    else h
  (h', if USBD_DFU_DETACH_SUPPORT ≠ 0 then [DfuEffect.usbdStop, DfuEffect.usbdStart]
       else [DfuEffect.usbdDelay wValue])

/-- DFU_Download (usbd_dfu.c lines 601-651). -/
def DFU_Download (h : USBD_DFU_HandleTypeDef) (wValue wLength : Nat) :
    USBD_DFU_HandleTypeDef × List DfuEffect :=
  if wLength > 0 then
    if h.dev_state = DFU_STATE_IDLE ∨ h.dev_state = DFU_STATE_DNLOAD_IDLE then
      ({ h with
         wblock_num := wValue
         wlength := wLength
         dev_state := DFU_STATE_DNLOAD_SYNC
         dev_status := { h.dev_status with b4 := DFU_STATE_DNLOAD_SYNC } },
       [DfuEffect.ctlPrepareRx wLength])
    else
      (h, [DfuEffect.ctlError])
  else
    if h.dev_state = DFU_STATE_DNLOAD_IDLE ∨ h.dev_state = DFU_STATE_IDLE then
      ({ h with
         manif_state := DFU_MANIFEST_IN_PROGRESS
         dev_state := DFU_STATE_MANIFEST_SYNC
         dev_status := { h.dev_status with
                         b1 := 0, b2 := 0, b3 := 0, b4 := DFU_STATE_MANIFEST_SYNC } },
       [])
    else
      (h, [DfuEffect.ctlError])

/-- DFU_Upload (usbd_dfu.c lines 659-751). -/
def DFU_Upload (media : USBD_DFU_MediaTypeDef) (h : USBD_DFU_HandleTypeDef)
    (wValue wLength : Nat) : USBD_DFU_HandleTypeDef × List DfuEffect :=
  if wLength > 0 then
    if h.dev_state = DFU_STATE_IDLE ∨ h.dev_state = DFU_STATE_UPLOAD_IDLE then
      let h := { h with wblock_num := wValue, wlength := wLength }
      if h.wblock_num = 0 then
        let st := if h.wlength > 3 then DFU_STATE_IDLE else DFU_STATE_UPLOAD_IDLE
        let h := { h with
                   dev_state := st
                   dev_status := { h.dev_status with b1 := 0, b2 := 0, b3 := 0, b4 := st }
                   buffer := listOverwrite h.buffer
                     [DFU_CMD_GETCOMMANDS, DFU_CMD_SETADDRESSPOINTER, DFU_CMD_ERASE] }
        (h, [DfuEffect.ctlSendData (h.buffer.take 3) 3])
      else if h.wblock_num > 1 then
        let h := { h with
                   dev_state := DFU_STATE_UPLOAD_IDLE
                   dev_status := { h.dev_status with
                                   b1 := 0, b2 := 0, b3 := 0, b4 := DFU_STATE_UPLOAD_IDLE } }
        let addr := DFU_block_addr h.wblock_num h.data_ptr
        let h := if media.ReadPresent then
                   { h with buffer := listOverwrite h.buffer
                              ((media.ReadData addr h.wlength).take h.wlength) }
                 else h
        (h, (if media.ReadPresent then [DfuEffect.mediaRead addr h.wlength] else []) ++
            [DfuEffect.ctlSendData (h.buffer.take h.wlength) h.wlength])
      else
        (({ h with
            dev_state := DFU_ERROR_STALLEDPKT
            dev_status := { h.dev_status with
                            b1 := 0, b2 := 0, b3 := 0, b4 := DFU_ERROR_STALLEDPKT } }),
         [DfuEffect.ctlError])
    else
      ({ h with wlength := 0, wblock_num := 0 }, [DfuEffect.ctlError])
  else
    ({ h with
       dev_state := DFU_STATE_IDLE
       dev_status := { h.dev_status with b1 := 0, b2 := 0, b3 := 0, b4 := DFU_STATE_IDLE } },
     [])

/-- DFU_GetStatus (usbd_dfu.c lines 758-829). -/
def DFU_GetStatus (media : USBD_DFU_MediaTypeDef) (h : USBD_DFU_HandleTypeDef) :
    USBD_DFU_HandleTypeDef × List DfuEffect :=
  let step :=
    if h.dev_state = DFU_STATE_DNLOAD_SYNC then
      if h.wlength ≠ 0 then
        let h := { h with
                   dev_state := DFU_STATE_DNLOAD_BUSY
                   dev_status := { h.dev_status with
                                   b1 := 0, b2 := 0, b3 := 0, b4 := DFU_STATE_DNLOAD_BUSY } }
        if media.GetStatusPresent then
          let op := if h.wblock_num = 0 ∧ h.buffer.getD 0 0 = DFU_CMD_ERASE then
                      DFU_MEDIA_ERASE else DFU_MEDIA_PROGRAM
          let t := media.StatusPoll h.data_ptr op
          ({ h with dev_status := { h.dev_status with b1 := t.1, b2 := t.2.1, b3 := t.2.2 } },
           [DfuEffect.mediaGetStatus h.data_ptr op])
        else (h, [])
      else
        ({ h with
           dev_state := DFU_STATE_DNLOAD_IDLE
           dev_status := { h.dev_status with
                           b1 := 0, b2 := 0, b3 := 0, b4 := DFU_STATE_DNLOAD_IDLE } },
         [])
    else if h.dev_state = DFU_STATE_MANIFEST_SYNC then
      if h.manif_state = DFU_MANIFEST_IN_PROGRESS then
        ({ h with
           dev_state := DFU_STATE_MANIFEST
           dev_status := { h.dev_status with
                           b1 := 1, b2 := 0, b3 := 0, b4 := DFU_STATE_MANIFEST } },
         [])
      else if h.manif_state = DFU_MANIFEST_COMPLETE ∧ DFU_MANIFEST_TOLERANT then
        ({ h with
           dev_state := DFU_STATE_IDLE
           dev_status := { h.dev_status with
                           b1 := 0, b2 := 0, b3 := 0, b4 := DFU_STATE_IDLE } },
         [])
      else (h, [])
    else (h, [])
  (step.1, step.2 ++ [DfuEffect.ctlSendData step.1.dev_status.bytes 6])

/-- DFU_ClearStatus (usbd_dfu.c lines 836-862). -/
def DFU_ClearStatus (h : USBD_DFU_HandleTypeDef) :
    USBD_DFU_HandleTypeDef × List DfuEffect :=
  if h.dev_state = DFU_STATE_ERROR then
    ({ h with
       dev_state := DFU_STATE_IDLE
       dev_status := ⟨DFU_ERROR_NONE, 0, 0, 0, DFU_STATE_IDLE, 0⟩ }, [])
  else
    ({ h with
       dev_state := DFU_STATE_ERROR
       dev_status := ⟨DFU_ERROR_UNKNOWN, 0, 0, 0, DFU_STATE_ERROR, 0⟩ }, [])

/-- DFU_GetState (usbd_dfu.c lines 869-877). -/
def DFU_GetState (h : USBD_DFU_HandleTypeDef) :
    USBD_DFU_HandleTypeDef × List DfuEffect :=
  (h, [DfuEffect.ctlSendData [h.dev_state] 1])

/-- DFU_Abort (usbd_dfu.c lines 884-906): resets to IDLE from the five
abortable states and does nothing otherwise. -/
def DFU_Abort (h : USBD_DFU_HandleTypeDef) :
    USBD_DFU_HandleTypeDef × List DfuEffect :=
  if h.dev_state = DFU_STATE_IDLE ∨ h.dev_state = DFU_STATE_DNLOAD_SYNC ∨
     h.dev_state = DFU_STATE_DNLOAD_IDLE ∨ h.dev_state = DFU_STATE_MANIFEST_SYNC ∨
     h.dev_state = DFU_STATE_UPLOAD_IDLE then
    ({ h with
       dev_state := DFU_STATE_IDLE
       dev_status := ⟨DFU_ERROR_NONE, 0, 0, 0, DFU_STATE_IDLE, 0⟩
       wblock_num := 0
       wlength := 0 }, [])
  else
    (h, [])

/-- DFU_Leave (usbd_dfu.c lines 914-947): manifestation completion; with
manifestation tolerance compiled out, tears the device down and resets. -/
def DFU_Leave (h : USBD_DFU_HandleTypeDef) :
    USBD_DFU_HandleTypeDef × List DfuEffect :=
  let h := { h with manif_state := DFU_MANIFEST_COMPLETE }
  if DFU_MANIFEST_TOLERANT then
    ({ h with
       dev_state := DFU_STATE_MANIFEST_SYNC
       dev_status := { h.dev_status with
                       b1 := 0, b2 := 0, b3 := 0, b4 := DFU_STATE_MANIFEST_SYNC } }, [])
  else
    ({ h with
       dev_state := DFU_STATE_MANIFEST_WAIT_RESET
       dev_status := { h.dev_status with
                       b1 := 0, b2 := 0, b3 := 0, b4 := DFU_STATE_MANIFEST_WAIT_RESET } },
     [DfuEffect.usbdDeInit, DfuEffect.systemReset])

/-- Body of USBD_DFU_EP0_TxReady (usbd_dfu.c lines 410-489) on a non-NULL
handle: decode the arrived download payload in DNLOAD_BUSY (vendor command
for block 0, media write for blocks above 1), or leave DFU mode when the
manifestation poll fires. -/
def DFU_EP0_TxReady_body (media : USBD_DFU_MediaTypeDef)
    (h : USBD_DFU_HandleTypeDef) : USBD_DFU_HandleTypeDef × List DfuEffect :=
  if h.dev_state = DFU_STATE_DNLOAD_BUSY then
    let step :=
      if h.wblock_num = 0 then
        if h.buffer.getD 0 0 = DFU_CMD_GETCOMMANDS ∧ h.wlength = 1 then
          (h, ([] : List DfuEffect))
        else if h.buffer.getD 0 0 = DFU_CMD_SETADDRESSPOINTER ∧ h.wlength = 5 then
          ({ h with data_ptr := DFU_addr_from_buffer h.buffer }, [])
        else if h.buffer.getD 0 0 = DFU_CMD_ERASE ∧ h.wlength = 5 then
          let p := DFU_addr_from_buffer h.buffer
          ({ h with data_ptr := p },
           if media.ErasePresent then [DfuEffect.mediaErase p] else [])
        else
          ({ h with wlength := 0, wblock_num := 0 }, [DfuEffect.ctlError])
      else if h.wblock_num > 1 then
        let addr := DFU_block_addr h.wblock_num h.data_ptr
        (h, if media.WritePresent then
              [DfuEffect.mediaWrite addr h.buffer h.wlength] else [])
      else (h, [])
    ({ step.1 with
       wlength := 0
       wblock_num := 0
       dev_state := DFU_STATE_DNLOAD_SYNC
       dev_status := { step.1.dev_status with
                       b1 := 0, b2 := 0, b3 := 0, b4 := DFU_STATE_DNLOAD_SYNC } },
     step.2)
  else if h.dev_state = DFU_STATE_MANIFEST then
    DFU_Leave h
  else (h, [])

/-- USBD_DFU_EP0_TxReady entry point: the C function reads
hdfu->dev_state through the class handle before any check, so a NULL handle
is dereferenced. -/
def USBD_DFU_EP0_TxReady (media : USBD_DFU_MediaTypeDef)
    (ph : Option USBD_DFU_HandleTypeDef) :
    CCallResult USBD_DFU_HandleTypeDef DfuEffect :=
  match ph with
  | none => CCallResult.nullDeref
  | some h =>
      let r := DFU_EP0_TxReady_body media h
      CCallResult.ok (some r.1) r.2 USBD_StatusTypeDef.usbd_ok

/-- USBD_DFU_Setup (usbd_dfu.c lines 307-389). Every class request handler
dereferences the handle at once (each reads hdfu->dev_state); of the
standard requests, GET_INTERFACE reads and SET_INTERFACE writes
hdfu->alt_setting, while GET_DESCRIPTOR and the error paths never touch the
handle. -/
def USBD_DFU_Setup (media : USBD_DFU_MediaTypeDef)
    (ph : Option USBD_DFU_HandleTypeDef) (req : USBD_SetupReqTypedef) :
    CCallResult USBD_DFU_HandleTypeDef DfuEffect :=
  if req.bmRequest % 2 ^ 8 &&& USB_REQ_TYPE_MASK = USB_REQ_TYPE_CLASS then
    if req.bRequest = DFU_DOWNLOAD ∨ req.bRequest = DFU_UPLOAD ∨
       req.bRequest = DFU_GETSTATUS ∨ req.bRequest = DFU_CLEARSTATUS ∨
       req.bRequest = DFU_GETSTATE ∨ req.bRequest = DFU_ABORT ∨
       req.bRequest = DFU_DETACH then
      match ph with
      | none => CCallResult.nullDeref
      | some h =>
          let r :=
            if req.bRequest = DFU_DOWNLOAD then DFU_Download h req.wValue req.wLength
            else if req.bRequest = DFU_UPLOAD then DFU_Upload media h req.wValue req.wLength
            else if req.bRequest = DFU_GETSTATUS then DFU_GetStatus media h
            else if req.bRequest = DFU_CLEARSTATUS then DFU_ClearStatus h
            else if req.bRequest = DFU_GETSTATE then DFU_GetState h
            else if req.bRequest = DFU_ABORT then DFU_Abort h
            else DFU_Detach h req.wValue
          CCallResult.ok (some r.1) r.2 USBD_StatusTypeDef.usbd_ok
    else
      CCallResult.ok ph [DfuEffect.ctlError] USBD_StatusTypeDef.usbd_ok
  else if req.bmRequest % 2 ^ 8 &&& USB_REQ_TYPE_MASK = USB_REQ_TYPE_STANDARD then
    if req.bRequest = USB_REQ_GET_DESCRIPTOR then
      CCallResult.ok ph
        [DfuEffect.ctlSendDesc
          (if req.wValue / 2 ^ 8 = 0x21 then min USB_DFU_DESC_SIZ req.wLength else 0)]
        USBD_StatusTypeDef.usbd_ok
    else if req.bRequest = USB_REQ_GET_INTERFACE then
      match ph with
      | none => CCallResult.nullDeref
      | some h =>
          CCallResult.ok (some h) [DfuEffect.ctlSendData [h.alt_setting] 1]
            USBD_StatusTypeDef.usbd_ok
    else if req.bRequest = USB_REQ_SET_INTERFACE then
      if req.wValue % 2 ^ 8 < USBD_DFU_MAX_ITF_NUM then
        match ph with
        | none => CCallResult.nullDeref
        | some h =>
            CCallResult.ok (some { h with alt_setting := req.wValue % 2 ^ 8 }) []
              USBD_StatusTypeDef.usbd_ok
      else
        CCallResult.ok ph [DfuEffect.ctlError] USBD_StatusTypeDef.usbd_ok
    else
      CCallResult.ok ph [DfuEffect.ctlError] USBD_StatusTypeDef.usbd_ok
  else
    CCallResult.ok ph [] USBD_StatusTypeDef.usbd_ok

/-!  CDC class driver (src/Middlewares/STM32_USB_Device_Library/Class/CDC/Src/usbd_cdc.c).
The companion header usbd_cdc.h is not part of src; the handle fields and
endpoint constants used by the .c file are modelled from the spec (standard
ST CDC ACM layout: one bulk IN, one bulk OUT, one interrupt command IN). -/

/-- Modelled from the spec: CDC endpoint addresses (usbd_cdc.h). -/
def CDC_IN_EP : Nat := 0x81

def CDC_OUT_EP : Nat := 0x01

def CDC_CMD_EP : Nat := 0x82

/-- Modelled from the spec: CDC packet sizes for full speed (usbd_cdc.h). -/
def CDC_DATA_FS_IN_PACKET_SIZE : Nat := 64

def CDC_DATA_FS_OUT_PACKET_SIZE : Nat := 64

def CDC_CMD_PACKET_SIZE : Nat := 8

/-- Endpoint type selectors of USBD_LL_OpenEP (usbd_def.h). -/
def USBD_EP_TYPE_BULK : Nat := 2

def USBD_EP_TYPE_INTR : Nat := 3

/-- USBD_CDC_HandleTypeDef (usbd_cdc.h): the fields usbd_cdc.c uses. Buffer
pointers are borrowed caller addresses, none models NULL. -/
structure USBD_CDC_HandleTypeDef where
  data : List Nat
  CmdOpCode : Nat
  CmdLength : Nat
  TxBuffer : Option Nat
  RxBuffer : Option Nat
  TxLength : Nat
  TxState : USBD_StatusTypeDef
deriving DecidableEq, Repr

/-- USBD_CDC_ItfTypeDef: presence of each user callback, modelling the NULL
checks usbd_cdc.c performs before invoking them. -/
structure USBD_CDC_ItfTypeDef where
  InitPresent : Bool
  DeInitPresent : Bool
  ControlPresent : Bool
  ReceivedPresent : Bool
  TransmittedPresent : Bool
deriving DecidableEq, Repr

/-- External calls performed by the CDC driver, in program order. -/
inductive CdcEffect where
  | openEP (addr ty mps : Nat)
  | closeEP (addr : Nat)
  | ctlSendData (len : Nat)
  | ctlPrepareRx (len : Nat)
  | llTransmit (ep : Nat) (buf : Option Nat) (len : Nat)
  | llPrepareReceive (ep : Nat) (buf : Option Nat) (len : Nat)
  | userInit
  | userDeInit
  | userControl (cmd len : Nat)
  | userTransmitted (buf : Option Nat) (len : Nat)
  | userReceived (buf : Option Nat) (len : Nat)
deriving DecidableEq, Repr

/-- USBD_CDC_Init (usbd_cdc.c lines 334-387), full speed path: opens the
three endpoints, then allocates the handle (allocOk models the USBD_malloc
outcome; garbage holds the uninitialized fields of a fresh allocation, of
which Init only sets TxState, TxBuffer and RxBuffer). Returns USBD_OK on
both paths, with the endpoints already open. -/
def USBD_CDC_Init (itf : USBD_CDC_ItfTypeDef) (allocOk : Bool)
    (garbage : USBD_CDC_HandleTypeDef) :
    Option USBD_CDC_HandleTypeDef × USBD_StatusTypeDef × List CdcEffect :=
  let opens := [CdcEffect.openEP CDC_IN_EP USBD_EP_TYPE_BULK CDC_DATA_FS_IN_PACKET_SIZE,
                CdcEffect.openEP CDC_OUT_EP USBD_EP_TYPE_BULK CDC_DATA_FS_OUT_PACKET_SIZE,
                CdcEffect.openEP CDC_CMD_EP USBD_EP_TYPE_INTR CDC_CMD_PACKET_SIZE]
  if allocOk then
    (some { garbage with
            TxState := USBD_StatusTypeDef.usbd_ok
            TxBuffer := none
            RxBuffer := none },
     USBD_StatusTypeDef.usbd_ok,
     opens ++ (if itf.InitPresent then [CdcEffect.userInit] else []))
  else
    (none, USBD_StatusTypeDef.usbd_ok, opens)

/-- USBD_CDC_DeInit (usbd_cdc.c lines 395-421). -/
def USBD_CDC_DeInit (itf : USBD_CDC_ItfTypeDef)
    (ph : Option USBD_CDC_HandleTypeDef) :
    Option USBD_CDC_HandleTypeDef × USBD_StatusTypeDef × List CdcEffect :=
  let closes := [CdcEffect.closeEP CDC_IN_EP, CdcEffect.closeEP CDC_OUT_EP,
                 CdcEffect.closeEP CDC_CMD_EP]
  match ph with
  | none => (none, USBD_StatusTypeDef.usbd_ok, closes)
  | some _ =>
      (none, USBD_StatusTypeDef.usbd_ok,
       closes ++ (if itf.DeInitPresent then [CdcEffect.userDeInit] else []))

/-- USBD_CDC_Setup (usbd_cdc.c lines 429-482). The handle is cast from
pdev->pClassData without a NULL check; a class request with a data stage
dereferences it (device-to-host direction passes hcdc->data to the Control
callback and to USBD_CtlSendData, host-to-device writes hcdc->CmdOpCode and
hcdc->CmdLength), while the zero length class path and the standard requests
never touch the handle. -/
def USBD_CDC_Setup (itf : USBD_CDC_ItfTypeDef)
    (ph : Option USBD_CDC_HandleTypeDef) (req : USBD_SetupReqTypedef) :
    CCallResult USBD_CDC_HandleTypeDef CdcEffect :=
  if req.bmRequest % 2 ^ 8 &&& USB_REQ_TYPE_MASK = USB_REQ_TYPE_CLASS then
    if req.wLength ≠ 0 then
      if req.bmRequest % 2 ^ 8 &&& 0x80 ≠ 0 then
        if itf.ControlPresent then
          match ph with
          | none => CCallResult.nullDeref
          | some h =>
              CCallResult.ok (some h)
                [CdcEffect.userControl req.bRequest req.wLength,
                 CdcEffect.ctlSendData req.wLength]
                USBD_StatusTypeDef.usbd_ok
        else
          CCallResult.ok ph [] USBD_StatusTypeDef.usbd_ok
      else
        match ph with
        | none => CCallResult.nullDeref
        | some h =>
            CCallResult.ok
              (some { h with CmdOpCode := req.bRequest, CmdLength := req.wLength })
              [CdcEffect.ctlPrepareRx req.wLength]
              USBD_StatusTypeDef.usbd_ok
    else
      if itf.ControlPresent then
        CCallResult.ok ph [CdcEffect.userControl req.bRequest 0]
          USBD_StatusTypeDef.usbd_ok
      else
        CCallResult.ok ph [] USBD_StatusTypeDef.usbd_ok
  else if req.bmRequest % 2 ^ 8 &&& USB_REQ_TYPE_MASK = USB_REQ_TYPE_STANDARD then
    if req.bRequest = USB_REQ_GET_INTERFACE then
      CCallResult.ok ph [CdcEffect.ctlSendData 1] USBD_StatusTypeDef.usbd_ok
    else
      CCallResult.ok ph [] USBD_StatusTypeDef.usbd_ok
  else
    CCallResult.ok ph [] USBD_StatusTypeDef.usbd_ok

/-- USBD_CDC_DataIn (usbd_cdc.c lines 490-509): with a non-NULL handle,
clears the transmit busy state and reports the completed buffer and length
to the Transmitted callback; a NULL handle is a checked no-op. -/
def USBD_CDC_DataIn (itf : USBD_CDC_ItfTypeDef)
    (ph : Option USBD_CDC_HandleTypeDef) (epnum : Nat) :
    Option USBD_CDC_HandleTypeDef × USBD_StatusTypeDef × List CdcEffect :=
  match ph with
  | none => (none, USBD_StatusTypeDef.usbd_ok, [])
  | some h =>
      (some { h with TxState := USBD_StatusTypeDef.usbd_ok },
       USBD_StatusTypeDef.usbd_ok,
       if itf.TransmittedPresent then [CdcEffect.userTransmitted h.TxBuffer h.TxLength]
       else [])

/-- USBD_CDC_DataOut (usbd_cdc.c lines 517-535): with a non-NULL handle,
reports the receive buffer and the actual received byte count (rxSize models
USBD_LL_GetRxDataSize) to the Received callback; a NULL handle is a checked
no-op (the cast happens before the check but no field is touched). -/
def USBD_CDC_DataOut (itf : USBD_CDC_ItfTypeDef)
    (ph : Option USBD_CDC_HandleTypeDef) (epnum rxSize : Nat) :
    Option USBD_CDC_HandleTypeDef × USBD_StatusTypeDef × List CdcEffect :=
  match ph with
  | none => (none, USBD_StatusTypeDef.usbd_ok, [])
  | some h =>
      (some h, USBD_StatusTypeDef.usbd_ok,
       if itf.ReceivedPresent then [CdcEffect.userReceived h.RxBuffer rxSize] else [])

/-- USBD_CDC_EP0_RxReady (usbd_cdc.c lines 542-556): the guard
short-circuits on pClassData being NULL before reading CmdOpCode, so a NULL
handle is a safe no-op. -/
def USBD_CDC_EP0_RxReady (itf : USBD_CDC_ItfTypeDef)
    (ph : Option USBD_CDC_HandleTypeDef) :
    Option USBD_CDC_HandleTypeDef × USBD_StatusTypeDef × List CdcEffect :=
  match ph with
  | none => (none, USBD_StatusTypeDef.usbd_ok, [])
  | some h =>
      if itf.ControlPresent ∧ h.CmdOpCode ≠ 0xFF then
        (some { h with CmdOpCode := 0xFF },
         USBD_StatusTypeDef.usbd_ok,
         [CdcEffect.userControl h.CmdOpCode h.CmdLength])
      else
        (some h, USBD_StatusTypeDef.usbd_ok, [])

/-- USBD_CDC_Transmit (usbd_cdc.c lines 620-642): USBD_FAIL on a NULL
handle; otherwise returns the busy TxState unchanged, or records the
borrowed buffer and length, marks busy and starts the bulk IN transfer
(llStatus models the USBD_LL_Transmit return value). -/
def USBD_CDC_Transmit (ph : Option USBD_CDC_HandleTypeDef)
    (pbuff : Option Nat) (length : Nat) (llStatus : USBD_StatusTypeDef) :
    Option USBD_CDC_HandleTypeDef × USBD_StatusTypeDef × List CdcEffect :=
  match ph with
  | none => (none, USBD_StatusTypeDef.usbd_fail, [])
  | some h =>
      if h.TxState = USBD_StatusTypeDef.usbd_ok then
        (some { h with
                TxState := USBD_StatusTypeDef.usbd_busy
                TxBuffer := pbuff
                TxLength := length },
         llStatus,
         [CdcEffect.llTransmit CDC_IN_EP pbuff length])
      else
        (some h, h.TxState, [])

/-- USBD_CDC_Receive (usbd_cdc.c lines 651-664): USBD_FAIL on a NULL
handle; otherwise records the receive buffer and arms the bulk OUT
reception. -/
def USBD_CDC_Receive (ph : Option USBD_CDC_HandleTypeDef)
    (pbuff : Option Nat) (length : Nat) (llStatus : USBD_StatusTypeDef) :
    Option USBD_CDC_HandleTypeDef × USBD_StatusTypeDef × List CdcEffect :=
  match ph with
  | none => (none, USBD_StatusTypeDef.usbd_fail, [])
  | some h =>
      (some { h with RxBuffer := pbuff },
       llStatus,
       [CdcEffect.llPrepareReceive CDC_OUT_EP pbuff length])

/-!  RNDIS class driver (src/Middlewares/STM32_USB_Device_Library/Class/RNDIS).
The message constants and struct layouts come from rndis.h and usbd_rndis.h,
which are part of src. The shared request/response buffer hrndis->data is a
uint32 array reinterpreted as the various message records; it is modelled as
a word-indexed memory (Nat to Nat), with the field offsets of rndis.h:
every field is one 32 bit word, so byte offset 4*k is word index k. -/

/-- RNDIS message type tags (rndis.h lines 38-53). -/
def REMOTE_NDIS_PACKET_MSG : Nat := 0x00000001

def REMOTE_NDIS_INITIALIZE_MSG : Nat := 0x00000002

def REMOTE_NDIS_INITIALIZE_CMPLT : Nat := 0x80000002

def REMOTE_NDIS_QUERY_MSG : Nat := 0x00000004

def REMOTE_NDIS_QUERY_CMPLT : Nat := 0x80000004

def REMOTE_NDIS_SET_MSG : Nat := 0x00000005

def REMOTE_NDIS_SET_CMPLT : Nat := 0x80000005

def REMOTE_NDIS_RESET_MSG : Nat := 0x00000006

def REMOTE_NDIS_RESET_CMPLT : Nat := 0x80000006

def REMOTE_NDIS_INDICATE_STATUS_MSG : Nat := 0x00000007

def REMOTE_NDIS_KEEPALIVE_MSG : Nat := 0x00000008

def REMOTE_NDIS_KEEPALIVE_CMPLT : Nat := 0x80000008

/-- RNDIS status values (rndis.h lines 56-64). -/
def RNDIS_STATUS_SUCCESS : Nat := 0x00000000

def RNDIS_STATUS_FAILURE : Nat := 0xC0000001

/-- The supported list OID (rndis_oid.h line 28). -/
def OID_GEN_SUPPORTED_LIST : Nat := 0x00010101

/-- RNDIS endpoint addresses and command packet size (usbd_rndis.h). -/
def RNDIS_IN_EP : Nat := 0x82

def RNDIS_OUT_EP : Nat := 0x03

def RNDIS_CMD_EP : Nat := 0x81

def RNDIS_CMD_PACKET_SIZE : Nat := 8

def RNDIS_DATA_FS_MAX_PACKET_SIZE : Nat := 64

/-- Class request codes (usbd_rndis.h). -/
def RNDIS_SEND_ENCAPSULATED_COMMAND : Nat := 0x00

def RNDIS_GET_ENCAPSULATED_RESPONSE : Nat := 0x01

/-- Struct sizes of rndis.h, in bytes: every field is a uint32 word. -/
def rndis_sizeof_PacketMsg : Nat := 44

def rndis_sizeof_InitCmplt : Nat := 52

def rndis_sizeof_QueryCmplt : Nat := 24

def rndis_sizeof_SetCmplt : Nat := 16

def rndis_sizeof_ResetCmplt : Nat := 16

def rndis_sizeof_KeepAliveCmplt : Nat := 16

def rndis_sizeof_IndStatusMsg : Nat := 20

/-- Byte offset of the DataOffset field inside RNDIS_PacketMsgType
(third field of rndis.h lines 89-113). -/
def rndis_offsetof_DataOffset : Nat := 8

/-- Byte offset of the RequestID field inside the query and set records. -/
def rndis_offsetof_RequestID : Nat := 8

/-- Modelled from the spec: EP0 state value USBD_EP0_IDLE of usbd_def.h
(not part of src); SendStatus only proceeds when the control endpoint is
idle. -/
def USBD_EP0_IDLE : Nat := 0

/-- A single word store into the shared request/response buffer. -/
def setW (d : Nat → Nat) (i v : Nat) : Nat → Nat :=
  fun j => if j = i then v else d j

/-- Consecutive word stores starting at index i (the copy loops of
usbd_rndis.c). -/
def writeWords (d : Nat → Nat) (i : Nat) : List Nat → (Nat → Nat)
  | [] => d
  | v :: vs => writeWords (setW d i v) (i + 1) vs

/-- One entry of the registered OID table (usbd_rndis.h): the OID value and
its query-set server. The server is modelled on the in length parameter
(0 means query) and returns the status it reports, the payload words it
stores at the info buffer and the length it writes back. -/
structure RNDIS_ObjectInfoType where
  Oid : Nat
  QuerySetServer : Nat → Nat × List Nat × Nat

/-- USBD_RNDIS_ItfTypeDef (usbd_rndis.h): user callbacks (presence booleans
model the NULL checks of usbd_rndis.c) and the registered OID table;
ObjectInfoCount of the C struct is the list length. -/
structure USBD_RNDIS_ItfTypeDef where
  InitPresent : Bool
  DeInitPresent : Bool
  PacketReceivedPresent : Bool
  ObjectInfo : List RNDIS_ObjectInfoType

/-- USBD_RNDIS_HandleTypeDef (usbd_rndis.h): data is the word-indexed
shared request/response buffer; TxMsg and RxMsg are borrowed message
addresses; TxLength and MsgLength are uint16. -/
structure USBD_RNDIS_HandleTypeDef where
  data : Nat → Nat
  TxMsg : Option Nat
  RxMsg : Option Nat
  TxLength : Nat
  MsgLength : Nat
  MaxTransferSize : Nat

/-- External calls performed by the RNDIS driver, in program order. -/
inductive RndisEffect where
  | openEP (addr ty mps : Nat)
  | closeEP (addr : Nat)
  | flushEP (addr : Nat)
  | ctlSendData (len : Nat)
  | ctlPrepareRx (len : Nat)
  | llTransmit (ep len : Nat)
  | llPrepareReceive (ep : Nat) (buf : Option Nat) (len : Nat)
  | userInit
  | userDeInit
  | packetReceived (addr len : Nat)
deriving DecidableEq, Repr

/-- The word image of the constant RNDIS_InitCmplt template
(usbd_rndis.c lines 310-321); fields without an initializer are zero,
MaxTransferSize is sizeof(RNDIS_PacketMsgType). -/
def RNDIS_InitCmplt_words : List Nat :=
  [REMOTE_NDIS_INITIALIZE_CMPLT, rndis_sizeof_InitCmplt, 0, RNDIS_STATUS_SUCCESS,
   1, 0, 1, 0, 1, rndis_sizeof_PacketMsg, 0, 0, 0]

/-- USBD_RNDIS_Init (usbd_rndis.c lines 370-408), full speed path: opens
the three endpoints, then allocates the handle (allocOk models the
USBD_malloc outcome; garbage holds the uninitialized fields of a fresh
allocation, of which Init only sets TxLength and MaxTransferSize). Returns
USBD_OK on both paths, with the endpoints already open. -/
def USBD_RNDIS_Init (allocOk : Bool) (garbage : USBD_RNDIS_HandleTypeDef) :
    Option USBD_RNDIS_HandleTypeDef × USBD_StatusTypeDef × List RndisEffect :=
  let opens := [RndisEffect.openEP RNDIS_IN_EP USBD_EP_TYPE_BULK RNDIS_DATA_FS_MAX_PACKET_SIZE,
                RndisEffect.openEP RNDIS_OUT_EP USBD_EP_TYPE_BULK RNDIS_DATA_FS_MAX_PACKET_SIZE,
                RndisEffect.openEP RNDIS_CMD_EP USBD_EP_TYPE_INTR RNDIS_CMD_PACKET_SIZE]
  if allocOk then
    (some { garbage with TxLength := 0, MaxTransferSize := rndis_sizeof_PacketMsg },
     USBD_StatusTypeDef.usbd_ok, opens)
  else
    (none, USBD_StatusTypeDef.usbd_ok, opens)

/-- USBD_RNDIS_DeInit (usbd_rndis.c lines 416-442). -/
def USBD_RNDIS_DeInit (itf : USBD_RNDIS_ItfTypeDef)
    (ph : Option USBD_RNDIS_HandleTypeDef) :
    Option USBD_RNDIS_HandleTypeDef × USBD_StatusTypeDef × List RndisEffect :=
  let closes := [RndisEffect.closeEP RNDIS_IN_EP, RndisEffect.closeEP RNDIS_OUT_EP,
                 RndisEffect.closeEP RNDIS_CMD_EP]
  match ph with
  | none => (none, USBD_StatusTypeDef.usbd_ok, closes)
  | some _ =>
      (none, USBD_StatusTypeDef.usbd_ok,
       closes ++ (if itf.DeInitPresent then [RndisEffect.userDeInit] else []))

/-- USBD_RNDIS_Setup (usbd_rndis.c lines 450-489). The handle is cast from
pdev->pClassData without a NULL check; a class request with a data stage
dereferences it (GET_ENCAPSULATED_RESPONSE reads the MessageLength word of
hrndis->data, the send path writes hrndis->MsgLength), while the zero
length class path and the standard requests never touch the handle. -/
def USBD_RNDIS_Setup (ph : Option USBD_RNDIS_HandleTypeDef)
    (req : USBD_SetupReqTypedef) :
    CCallResult USBD_RNDIS_HandleTypeDef RndisEffect :=
  if req.bmRequest % 2 ^ 8 &&& USB_REQ_TYPE_MASK = USB_REQ_TYPE_CLASS then
    if req.wLength ≠ 0 then
      match ph with
      | none => CCallResult.nullDeref
      | some h =>
          if req.bRequest = RNDIS_GET_ENCAPSULATED_RESPONSE then
            CCallResult.ok (some h) [RndisEffect.ctlSendData (h.data 1)]
              USBD_StatusTypeDef.usbd_ok
          else
            CCallResult.ok (some { h with MsgLength := req.wLength % 2 ^ 16 })
              [RndisEffect.ctlPrepareRx req.wLength] USBD_StatusTypeDef.usbd_ok
    else
      CCallResult.ok ph [] USBD_StatusTypeDef.usbd_ok
  else if req.bmRequest % 2 ^ 8 &&& USB_REQ_TYPE_MASK = USB_REQ_TYPE_STANDARD then
    if req.bRequest = USB_REQ_GET_INTERFACE then
      CCallResult.ok ph [RndisEffect.ctlSendData 1] USBD_StatusTypeDef.usbd_ok
    else
      CCallResult.ok ph [] USBD_StatusTypeDef.usbd_ok
  else
    CCallResult.ok ph [] USBD_StatusTypeDef.usbd_ok

/-- USBD_RNDIS_ResponseReady (usbd_rndis.c lines 495-499): the fixed eight
byte response-available notification on the interrupt endpoint. -/
def USBD_RNDIS_ResponseReady : RndisEffect :=
  RndisEffect.llTransmit RNDIS_CMD_EP RNDIS_CMD_PACKET_SIZE

/-- USBD_RNDIS_EP0_RxReady (usbd_rndis.c lines 506-677): the control
message dispatcher. Gated on a non-NULL handle and on the arrived
MessageLength word equalling the length announced at Setup time; dispatches
on the MessageType word and rewrites the shared buffer in place into the
completion record. -/
def USBD_RNDIS_EP0_RxReady (itf : USBD_RNDIS_ItfTypeDef)
    (ph : Option USBD_RNDIS_HandleTypeDef) :
    Option USBD_RNDIS_HandleTypeDef × USBD_StatusTypeDef × List RndisEffect :=
  match ph with
  | none => (none, USBD_StatusTypeDef.usbd_ok, [])
  | some h =>
      if h.data 1 = h.MsgLength then
        if h.data 0 = REMOTE_NDIS_INITIALIZE_MSG then
          let reqId := h.data 2
          let d := writeWords h.data 0 RNDIS_InitCmplt_words
          let d := setW d 2 reqId
          let d := if h.MaxTransferSize > d 9 then setW d 9 h.MaxTransferSize else d
          (some { h with data := d }, USBD_StatusTypeDef.usbd_ok,
           (if itf.InitPresent then [RndisEffect.userInit] else []) ++
           [USBD_RNDIS_ResponseReady])
        else if h.data 0 = REMOTE_NDIS_QUERY_MSG then
          let oid := h.data 3
          let d := setW h.data 0 REMOTE_NDIS_QUERY_CMPLT
          let d := setW d 3 RNDIS_STATUS_FAILURE
          let d := setW d 4 0
          let d := setW d 5 (rndis_sizeof_QueryCmplt - rndis_offsetof_RequestID)
          let d :=
            if oid = OID_GEN_SUPPORTED_LIST then
              let d := writeWords d 6 (itf.ObjectInfo.map RNDIS_ObjectInfoType.Oid)
              let d := setW d 3 RNDIS_STATUS_SUCCESS
              setW d 4 (itf.ObjectInfo.length * 4)
            else
              match itf.ObjectInfo.find? (fun q => q.Oid = oid) with
              | some q =>
                  let r := q.QuerySetServer 0
                  let d := writeWords d 6 r.2.1
                  let d := setW d 3 r.1
                  setW d 4 r.2.2
              | none => d
          let d := setW d 1 (rndis_sizeof_QueryCmplt + d 4)
          (some { h with data := d }, USBD_StatusTypeDef.usbd_ok,
           [USBD_RNDIS_ResponseReady])
        else if h.data 0 = REMOTE_NDIS_SET_MSG then
          let status :=
            if h.data 6 = 0 then
              match itf.ObjectInfo.find? (fun q => q.Oid = h.data 3) with
              | some q => (q.QuerySetServer (h.data 4)).1
              | none => RNDIS_STATUS_FAILURE
            else RNDIS_STATUS_FAILURE
          let d := setW h.data 0 REMOTE_NDIS_SET_CMPLT
          let d := setW d 1 rndis_sizeof_SetCmplt
          let d := setW d 3 status
          (some { h with data := d }, USBD_StatusTypeDef.usbd_ok,
           [USBD_RNDIS_ResponseReady])
        else if h.data 0 = REMOTE_NDIS_RESET_MSG then
          let d := setW h.data 0 REMOTE_NDIS_RESET_CMPLT
          let d := setW d 1 rndis_sizeof_ResetCmplt
          let d := setW d 2 RNDIS_STATUS_SUCCESS
          let d := setW d 3 1
          (some { h with data := d, TxLength := 0 }, USBD_StatusTypeDef.usbd_ok,
           (if itf.DeInitPresent then [RndisEffect.userDeInit] else []) ++
           [RndisEffect.flushEP RNDIS_IN_EP, RndisEffect.flushEP RNDIS_OUT_EP] ++
           (if itf.InitPresent then [RndisEffect.userInit] else []) ++
           [USBD_RNDIS_ResponseReady])
        else if h.data 0 = REMOTE_NDIS_KEEPALIVE_MSG then
          let d := setW h.data 0 REMOTE_NDIS_KEEPALIVE_CMPLT
          let d := setW d 1 rndis_sizeof_KeepAliveCmplt
          let d := setW d 3 RNDIS_STATUS_SUCCESS
          (some { h with data := d }, USBD_StatusTypeDef.usbd_ok,
           [USBD_RNDIS_ResponseReady])
        else
          (some h, USBD_StatusTypeDef.usbd_ok, [])
      else
        (some h, USBD_StatusTypeDef.usbd_ok, [])

/-- USBD_RNDIS_DataIn (usbd_rndis.c lines 685-698): clears the outstanding
transmit length on IN endpoint completion; a NULL handle is a checked
no-op. -/
def USBD_RNDIS_DataIn (ph : Option USBD_RNDIS_HandleTypeDef) (epnum : Nat) :
    Option USBD_RNDIS_HandleTypeDef × USBD_StatusTypeDef × List RndisEffect :=
  match ph with
  | none => (none, USBD_StatusTypeDef.usbd_ok, [])
  | some h =>
      if epnum = RNDIS_IN_EP then
        (some { h with TxLength := 0 }, USBD_StatusTypeDef.usbd_ok, [])
      else
        (some h, USBD_StatusTypeDef.usbd_ok, [])

/-- View of the packet message header fields read by the inbound path: the
first four words of RNDIS_PacketMsgType at the registered receive buffer. -/
structure RNDIS_PacketMsgView where
  MessageType : Nat
  MessageLength : Nat
  DataOffset : Nat
  DataLength : Nat
deriving DecidableEq, Repr

/-- RNDIS_VALID_PACKET_MSG (rndis.h lines 298-302): the framing validator
of the inbound packet path. -/
def RNDIS_VALID_PACKET_MSG (m : RNDIS_PacketMsgView) (msgLength : Nat) : Bool :=
  (m.MessageLength == msgLength) &&
  (m.MessageType == REMOTE_NDIS_PACKET_MSG) &&
  (m.MessageLength == m.DataLength + m.DataOffset + rndis_offsetof_DataOffset)

/-- USBD_RNDIS_DataOut (usbd_rndis.c lines 706-724): msg holds the header
words at the registered receive buffer, msgAddr its byte address, rxLength
models USBD_LL_GetRxDataSize. Delivers the payload slice, which starts
DataOffset bytes past the DataOffset field itself, to the PacketReceived
callback exactly when the framing validator accepts; the NULL checks on the
callback and the handle short-circuit safely. -/
def USBD_RNDIS_DataOut (itf : USBD_RNDIS_ItfTypeDef)
    (ph : Option USBD_RNDIS_HandleTypeDef) (epnum : Nat)
    (msg : RNDIS_PacketMsgView) (msgAddr rxLength : Nat) :
    Option USBD_RNDIS_HandleTypeDef × USBD_StatusTypeDef × List RndisEffect :=
  match ph with
  | none => (none, USBD_StatusTypeDef.usbd_ok, [])
  | some h =>
      if itf.PacketReceivedPresent then
        if RNDIS_VALID_PACKET_MSG msg rxLength then
          (some h, USBD_StatusTypeDef.usbd_ok,
           [RndisEffect.packetReceived
              (msgAddr + rndis_offsetof_DataOffset + msg.DataOffset) msg.DataLength])
        else
          (some h, USBD_StatusTypeDef.usbd_ok, [])
      else
        (some h, USBD_StatusTypeDef.usbd_ok, [])

/-- USBD_RNDIS_TransmitMessage (usbd_rndis.c lines 732-753): USBD_FAIL on a
NULL handle; USBD_BUSY while a transmit is outstanding (TxLength nonzero),
leaving the handle untouched; otherwise records the borrowed message address
and its MessageLength (truncated into the uint16 TxLength field) and starts
the bulk IN transfer. -/
def USBD_RNDIS_TransmitMessage (ph : Option USBD_RNDIS_HandleTypeDef)
    (msgAddr msgMessageLength : Nat) (llStatus : USBD_StatusTypeDef) :
    Option USBD_RNDIS_HandleTypeDef × USBD_StatusTypeDef × List RndisEffect :=
  match ph with
  | none => (none, USBD_StatusTypeDef.usbd_fail, [])
  | some h =>
      if h.TxLength = 0 then
        (some { h with TxMsg := some msgAddr, TxLength := msgMessageLength % 2 ^ 16 },
         llStatus,
         [RndisEffect.llTransmit RNDIS_IN_EP msgMessageLength])
      else
        (some h, USBD_StatusTypeDef.usbd_busy, [])

/-- USBD_RNDIS_SetReceiveBuffer (usbd_rndis.c lines 762-781). -/
def USBD_RNDIS_SetReceiveBuffer (ph : Option USBD_RNDIS_HandleTypeDef)
    (buffer : Option Nat) (size : Nat) (llStatus : USBD_StatusTypeDef) :
    Option USBD_RNDIS_HandleTypeDef × USBD_StatusTypeDef × List RndisEffect :=
  match ph with
  | none => (none, USBD_StatusTypeDef.usbd_fail, [])
  | some h =>
      let h := { h with RxMsg := buffer }
      let h := if h.MaxTransferSize < size then { h with MaxTransferSize := size } else h
      (some h, llStatus, [RndisEffect.llPrepareReceive RNDIS_OUT_EP buffer size])

/-- USBD_RNDIS_SendStatus (usbd_rndis.c lines 789-809): with a non-NULL
handle and an idle control endpoint, assembles the minimal indicate-status
message in the shared buffer and pushes the response-available notification;
but retval is initialized to USBD_FAIL and never overwritten, so every call
returns USBD_FAIL. -/
def USBD_RNDIS_SendStatus (ph : Option USBD_RNDIS_HandleTypeDef)
    (ep0_state status : Nat) :
    Option USBD_RNDIS_HandleTypeDef × USBD_StatusTypeDef × List RndisEffect :=
  match ph with
  | none => (none, USBD_StatusTypeDef.usbd_fail, [])
  | some h =>
      if ep0_state = USBD_EP0_IDLE then
        let d := setW h.data 0 REMOTE_NDIS_INDICATE_STATUS_MSG
        let d := setW d 1 rndis_sizeof_IndStatusMsg
        let d := setW d 2 status
        let d := setW d 3 0
        let d := setW d 4 0
        (some { h with data := d }, USBD_StatusTypeDef.usbd_fail,
         [USBD_RNDIS_ResponseReady])
      else
        (some h, USBD_StatusTypeDef.usbd_fail, [])

/-!  Concrete instances used by witnesses and counterexamples. -/

/-- A concrete backing medium with every callback registered; Read returns
0xAA bytes, GetStatus reports a 5 ms poll timeout. -/
def demoMedia : USBD_DFU_MediaTypeDef :=
  { StartAddress := 0x08008000
    InitPresent := true
    DeInitPresent := true
    ErasePresent := true
    WritePresent := true
    ReadPresent := true
    GetStatusPresent := true
    ReadData := fun _ len => List.replicate len 0xAA
    StatusPoll := fun _ _ => (5, 0, 0) }

/-- The DFU handle as USBD_DFU_Init leaves it for demoMedia (scratch buffer
content empty). -/
def demoDfuInitHandle : USBD_DFU_HandleTypeDef :=
  { alt_setting := 0
    buffer := []
    wblock_num := 0
    wlength := 0
    data_ptr := 0x08008000
    manif_state := DFU_MANIFEST_COMPLETE
    dev_state := DFU_STATE_IDLE
    dev_status := ⟨DFU_ERROR_NONE, 0, 0, 0, DFU_STATE_IDLE, 0⟩ }

/-- A DFU handle in DNLOAD_BUSY holding the one byte payload of download
block 1000, as left by DNLOAD block 1000 followed by GETSTATUS and the
control data stage arrival. -/
def demoDfuBusy1000 : USBD_DFU_HandleTypeDef :=
  { demoDfuInitHandle with
    wblock_num := 1000
    wlength := 1
    buffer := [0xAA]
    dev_state := DFU_STATE_DNLOAD_BUSY
    dev_status := ⟨DFU_ERROR_NONE, 0, 0, 0, DFU_STATE_DNLOAD_BUSY, 0⟩ }

/-- A DFU handle in the ERROR state. -/
def demoDfuErrorHandle : USBD_DFU_HandleTypeDef :=
  { demoDfuInitHandle with
    dev_state := DFU_STATE_ERROR
    dev_status := ⟨DFU_ERROR_UNKNOWN, 0, 0, 0, DFU_STATE_ERROR, 0⟩ }

/-- A CDC user interface with every callback registered. -/
def demoCdcItf : USBD_CDC_ItfTypeDef := ⟨true, true, true, true, true⟩

/-- A concrete CDC handle (also standing for the garbage content of a fresh
allocation). -/
def demoCdcHandle : USBD_CDC_HandleTypeDef :=
  { data := []
    CmdOpCode := 0xFF
    CmdLength := 0
    TxBuffer := none
    RxBuffer := none
    TxLength := 0
    TxState := USBD_StatusTypeDef.usbd_ok }

/-- A registered OID table of three entries, in registration order. -/
def demoOidTable : List RNDIS_ObjectInfoType :=
  [⟨0x00010106, fun _ => (RNDIS_STATUS_SUCCESS, [1514], 4)⟩,
   ⟨0x0001010A, fun _ => (RNDIS_STATUS_SUCCESS, [0], 4)⟩,
   ⟨0x0001010E, fun _ => (RNDIS_STATUS_SUCCESS, [0], 4)⟩]

/-- An RNDIS user interface with every callback registered and the three
entry OID table. -/
def demoRndisItf : USBD_RNDIS_ItfTypeDef :=
  { InitPresent := true
    DeInitPresent := true
    PacketReceivedPresent := true
    ObjectInfo := demoOidTable }

/-- Shared buffer content after a query for the supported OID list arrived
(MessageLength 28 is sizeof of the query record). -/
def demoQueryData : Nat → Nat := fun i =>
  if i = 0 then REMOTE_NDIS_QUERY_MSG
  else if i = 1 then 28
  else if i = 3 then OID_GEN_SUPPORTED_LIST
  else 0

/-- An RNDIS handle holding the arrived supported-list query. -/
def demoRndisQueryHandle : USBD_RNDIS_HandleTypeDef :=
  { data := demoQueryData
    TxMsg := none
    RxMsg := none
    TxLength := 0
    MsgLength := 28
    MaxTransferSize := rndis_sizeof_PacketMsg }

/-- An RNDIS handle at rest (zeroed shared buffer, no outstanding Tx). -/
def demoRndisHandle : USBD_RNDIS_HandleTypeDef :=
  { data := fun _ => 0
    TxMsg := none
    RxMsg := none
    TxLength := 0
    MsgLength := 0
    MaxTransferSize := rndis_sizeof_PacketMsg }

/-- Reads a word of the shared buffer through the option handle. -/
def optData (ph : Option USBD_RNDIS_HandleTypeDef) (i : Nat) : Nat :=
  match ph with
  | none => 0
  | some h => h.data i

/-- The invariant of claim C9: the state byte of the six byte wire status
record always mirrors the protocol state. -/
def DFU_statusStateInv (h : USBD_DFU_HandleTypeDef) : Prop :=
  h.dev_status.b4 = h.dev_state

/-- The shared buffer content produced by the supported-list branch of the
query dispatch (usbd_rndis.c lines 542-590), spelled out for reasoning:
header rewrite, OID copy loop, success status, payload length, total
message length. -/
def queryCmpltData (itf : USBD_RNDIS_ItfTypeDef) (h : USBD_RNDIS_HandleTypeDef) :
    Nat → Nat :=
  let d := setW h.data 0 REMOTE_NDIS_QUERY_CMPLT
  let d := setW d 3 RNDIS_STATUS_FAILURE
  let d := setW d 4 0
  let d := setW d 5 (rndis_sizeof_QueryCmplt - rndis_offsetof_RequestID)
  let d := writeWords d 6 (itf.ObjectInfo.map RNDIS_ObjectInfoType.Oid)
  let d := setW d 3 RNDIS_STATUS_SUCCESS
  let d := setW d 4 (itf.ObjectInfo.length * 4)
  setW d 1 (rndis_sizeof_QueryCmplt + d 4)

/-!  Supporting lemmas about the word memory. -/

/-- Stores at indices at or above the base leave lower indices alone. -/
theorem writeWords_get_below (vs : List Nat) :
    ∀ (d : Nat → Nat) (b j : Nat), j < b → writeWords d b vs j = d j := by
  induction vs with
  | nil => intro d b j _; rfl
  | cons v vs ih =>
      intro d b j hj
      have h1 : j < b + 1 := Nat.lt_succ_of_lt hj
      have h2 : j ≠ b := Nat.ne_of_lt hj
      simp [writeWords, ih (setW d b v) (b + 1) j h1, setW, h2]

/-- Reading back the i-th stored word. -/
theorem writeWords_get (vs : List Nat) :
    ∀ (d : Nat → Nat) (b i : Nat), i < vs.length →
      writeWords d b vs (b + i) = vs.getD i 0 := by
  induction vs with
  | nil => intro d b i h; simp at h
  | cons v vs ih =>
      intro d b i hi
      cases i with
      | zero =>
          have hb : b < b + 1 := Nat.lt_succ_self b
          simp [writeWords, writeWords_get_below vs (setW d b v) (b + 1) b hb, setW]
      | succ i =>
          have hi' : i < vs.length := by simpa using hi
          have harith : b + (i + 1) = (b + 1) + i := by omega
          simp only [writeWords, harith, ih (setW d b v) (b + 1) i hi']
          rfl

/-!  Claim theorems. -/

/-- C1, counterexample: the claim fixes the address of block 1000 at
0x083FD800, but running the download data stage of block 1000 with
XFER_SIZE 1024 and base address 0x08008000 makes the driver call the media
Write at (1000 - 2) * 1024 + 0x08008000 = 0x08101800, a different address. -/
theorem C1_counterexample :
    (DFU_EP0_TxReady_body demoMedia demoDfuBusy1000).2 =
      [DfuEffect.mediaWrite 0x08101800 [0xAA] 1] ∧
    (0x08101800 : Nat) ≠ 0x083FD800 := by
  constructor
  · decide
  · decide

/-- C1 (amended): for every download data stage and every upload of a block
number at least 2, the media Write and Read address is
((block - 2) * XFER_SIZE + data_ptr) reduced to uint32; with XFER_SIZE 1024
and base 0x08008000, blocks 2, 3 and 1000 give 0x08008000, 0x08008400 and
0x08101800 (the claim stated 0x083FD800 for block 1000). -/
theorem C1_block_address :
    (∀ (media : USBD_DFU_MediaTypeDef) (h : USBD_DFU_HandleTypeDef),
       h.dev_state = DFU_STATE_DNLOAD_BUSY → 2 ≤ h.wblock_num →
       media.WritePresent = true →
       (DFU_EP0_TxReady_body media h).2 =
         [DfuEffect.mediaWrite (DFU_block_addr h.wblock_num h.data_ptr)
            h.buffer h.wlength]) ∧
    (∀ (media : USBD_DFU_MediaTypeDef) (h : USBD_DFU_HandleTypeDef)
       (wValue wLength : Nat),
       (h.dev_state = DFU_STATE_IDLE ∨ h.dev_state = DFU_STATE_UPLOAD_IDLE) →
       2 ≤ wValue → 0 < wLength → media.ReadPresent = true →
       DfuEffect.mediaRead (DFU_block_addr wValue h.data_ptr) wLength ∈
         (DFU_Upload media h wValue wLength).2) ∧
    (∀ wblock data_ptr, DFU_block_addr wblock data_ptr =
       ((wblock - 2) * 1024 + data_ptr) % 2 ^ 32) ∧
    DFU_block_addr 2 0x08008000 = 0x08008000 ∧
    DFU_block_addr 3 0x08008000 = 0x08008400 ∧
    DFU_block_addr 1000 0x08008000 = 0x08101800 := by
  refine ⟨?_, ?_, ?_, by decide, by decide, by decide⟩
  · intro media h hs hb hw
    have h0 : ¬(h.wblock_num = 0) := by omega
    have h1 : 1 < h.wblock_num := by omega
    simp [DFU_EP0_TxReady_body, hs, h0, h1, hw]
  · intro media h wValue wLength hst hb hl hr
    have h0 : ¬(wValue = 0) := by omega
    have h1 : 1 < wValue := by omega
    rcases hst with hs | hs <;>
      simp [DFU_Upload, hs, h0, h1, hr, Nat.pos_iff_ne_zero.mp hl,
        DFU_STATE_IDLE, DFU_STATE_UPLOAD_IDLE, hl]
  · intro wblock data_ptr
    rfl

/-- C1 witness: the amended download part evaluated at block 1000 from
base 0x08008000. -/
theorem C1_block_address_witness :
    demoDfuBusy1000.dev_state = DFU_STATE_DNLOAD_BUSY ∧
    2 ≤ demoDfuBusy1000.wblock_num ∧
    demoMedia.WritePresent = true ∧
    (DFU_EP0_TxReady_body demoMedia demoDfuBusy1000).2 =
      [DfuEffect.mediaWrite (DFU_block_addr demoDfuBusy1000.wblock_num
         demoDfuBusy1000.data_ptr) demoDfuBusy1000.buffer demoDfuBusy1000.wlength] :=
  ⟨rfl, by decide, rfl,
   C1_block_address.1 demoMedia demoDfuBusy1000 rfl (by decide) rfl⟩

/-- C7: an ABORT request from any of IDLE, DNLOAD_SYNC, DNLOAD_IDLE,
MANIFEST_SYNC, UPLOAD_IDLE resets to IDLE with the error code cleared and
the block number and length zeroed; from the remaining four states
(DNLOAD_BUSY, MANIFEST, MANIFEST_WAIT_RESET, ERROR) the handle is left
completely unchanged and no external call is made. -/
theorem C7_abort :
    ∀ h : USBD_DFU_HandleTypeDef,
      ((h.dev_state = DFU_STATE_IDLE ∨ h.dev_state = DFU_STATE_DNLOAD_SYNC ∨
        h.dev_state = DFU_STATE_DNLOAD_IDLE ∨ h.dev_state = DFU_STATE_MANIFEST_SYNC ∨
        h.dev_state = DFU_STATE_UPLOAD_IDLE) →
        DFU_Abort h =
          ({ h with
             dev_state := DFU_STATE_IDLE
             dev_status := ⟨DFU_ERROR_NONE, 0, 0, 0, DFU_STATE_IDLE, 0⟩
             wblock_num := 0
             wlength := 0 }, [])) ∧
      ((h.dev_state = DFU_STATE_DNLOAD_BUSY ∨ h.dev_state = DFU_STATE_MANIFEST ∨
        h.dev_state = DFU_STATE_MANIFEST_WAIT_RESET ∨ h.dev_state = DFU_STATE_ERROR) →
        DFU_Abort h = (h, [])) := by
  intro h
  constructor
  · intro hyp
    simp only [DFU_Abort, if_pos hyp]
  · intro hyp
    have : ¬(h.dev_state = DFU_STATE_IDLE ∨ h.dev_state = DFU_STATE_DNLOAD_SYNC ∨
        h.dev_state = DFU_STATE_DNLOAD_IDLE ∨ h.dev_state = DFU_STATE_MANIFEST_SYNC ∨
        h.dev_state = DFU_STATE_UPLOAD_IDLE) := by
      rcases hyp with hs | hs | hs | hs <;>
        simp [hs, DFU_STATE_IDLE, DFU_STATE_DNLOAD_SYNC, DFU_STATE_DNLOAD_IDLE,
          DFU_STATE_MANIFEST_SYNC, DFU_STATE_UPLOAD_IDLE, DFU_STATE_DNLOAD_BUSY,
          DFU_STATE_MANIFEST, DFU_STATE_MANIFEST_WAIT_RESET, DFU_STATE_ERROR]
    simp only [DFU_Abort, if_neg this]

/-- C7 witness: ABORT evaluated in MANIFEST_SYNC (resets) and in ERROR
(no-op). -/
theorem C7_abort_witness :
    DFU_Abort { demoDfuInitHandle with
                dev_state := DFU_STATE_MANIFEST_SYNC
                dev_status := ⟨DFU_ERROR_NONE, 0, 0, 0, DFU_STATE_MANIFEST_SYNC, 0⟩ } =
      ({ demoDfuInitHandle with
         dev_state := DFU_STATE_IDLE
         dev_status := ⟨DFU_ERROR_NONE, 0, 0, 0, DFU_STATE_IDLE, 0⟩ }, []) ∧
    DFU_Abort demoDfuErrorHandle = (demoDfuErrorHandle, []) := by
  constructor
  · have := (C7_abort { demoDfuInitHandle with
        dev_state := DFU_STATE_MANIFEST_SYNC
        dev_status := ⟨DFU_ERROR_NONE, 0, 0, 0, DFU_STATE_MANIFEST_SYNC, 0⟩ }).1
      (Or.inr (Or.inr (Or.inr (Or.inl rfl))))
    simpa using this
  · exact (C7_abort demoDfuErrorHandle).2 (Or.inr (Or.inr (Or.inr rfl)))

/-- C8: the failing input evaluated. An UPLOAD of block 1 with nonzero
wLength from the freshly initialized IDLE state stalls the control transfer
(USBD_CtlError), but the driver assigns the status code value
DFU_ERROR_STALLEDPKT (0x0F) to dev_state, which is not the ERROR state
(0x0A), and never records the stalled-packet code in the error byte
dev_status[0], which stays DFU_ERROR_NONE. -/
theorem C8_upload_block1 :
    (USBD_DFU_Init demoMedia true []).1 = some demoDfuInitHandle ∧
    (DFU_Upload demoMedia demoDfuInitHandle 1 1).1.dev_state = DFU_ERROR_STALLEDPKT ∧
    DFU_ERROR_STALLEDPKT ≠ DFU_STATE_ERROR ∧
    (DFU_Upload demoMedia demoDfuInitHandle 1 1).1.dev_status.b0 = DFU_ERROR_NONE ∧
    (DFU_Upload demoMedia demoDfuInitHandle 1 1).1.dev_status.b4 = DFU_ERROR_STALLEDPKT ∧
    (DFU_Upload demoMedia demoDfuInitHandle 1 1).2 = [DfuEffect.ctlError] := by
  refine ⟨?_, by decide, by decide, by decide, by decide, by decide⟩
  decide

/-- C2, counterexample: the Setup entry points of all three classes and the
DFU EP0 data-stage callback dereference a NULL class handle instead of
short-circuiting: DFU Setup on any class request (here GETSTATUS), CDC Setup
on a class request with a data stage (here SET_LINE_CODING, bmRequest 0x21,
7 data bytes), RNDIS Setup on SEND_ENCAPSULATED_COMMAND with a data stage,
and the DFU EP0 callback which reads dev_state before any check. -/
theorem C2_counterexample :
    USBD_DFU_Setup demoMedia none ⟨0xA1, DFU_GETSTATUS, 0, 0, 6⟩ =
      CCallResult.nullDeref ∧
    USBD_CDC_Setup demoCdcItf none ⟨0x21, 0x20, 0, 0, 7⟩ =
      CCallResult.nullDeref ∧
    USBD_RNDIS_Setup none ⟨0x21, RNDIS_SEND_ENCAPSULATED_COMMAND, 0, 0, 24⟩ =
      CCallResult.nullDeref ∧
    USBD_DFU_EP0_TxReady demoMedia none = CCallResult.nullDeref :=
  ⟨rfl, rfl, rfl, rfl⟩

/-- C2 (amended): with a NULL class handle, the bulk data callbacks
(DataIn, DataOut), the CDC and RNDIS EP0_RxReady callbacks and all the
public transfer functions (CDC Transmit and Receive, RNDIS TransmitMessage,
SetReceiveBuffer and SendStatus) perform no dereference and return as safe
no-ops; the Setup entry points of the three classes and the DFU EP0
data-stage callback are NOT null-safe on class requests (see the
counterexample). -/
theorem C2_null_handle :
    (∀ itf ep, USBD_CDC_DataIn itf none ep =
       (none, USBD_StatusTypeDef.usbd_ok, [])) ∧
    (∀ itf ep n, USBD_CDC_DataOut itf none ep n =
       (none, USBD_StatusTypeDef.usbd_ok, [])) ∧
    (∀ itf, USBD_CDC_EP0_RxReady itf none =
       (none, USBD_StatusTypeDef.usbd_ok, [])) ∧
    (∀ p l st, USBD_CDC_Transmit none p l st =
       (none, USBD_StatusTypeDef.usbd_fail, [])) ∧
    (∀ p l st, USBD_CDC_Receive none p l st =
       (none, USBD_StatusTypeDef.usbd_fail, [])) ∧
    (∀ ep, USBD_RNDIS_DataIn none ep =
       (none, USBD_StatusTypeDef.usbd_ok, [])) ∧
    (∀ itf ep m a r, USBD_RNDIS_DataOut itf none ep m a r =
       (none, USBD_StatusTypeDef.usbd_ok, [])) ∧
    (∀ itf, USBD_RNDIS_EP0_RxReady itf none =
       (none, USBD_StatusTypeDef.usbd_ok, [])) ∧
    (∀ a ml st, USBD_RNDIS_TransmitMessage none a ml st =
       (none, USBD_StatusTypeDef.usbd_fail, [])) ∧
    (∀ b s st, USBD_RNDIS_SetReceiveBuffer none b s st =
       (none, USBD_StatusTypeDef.usbd_fail, [])) ∧
    (∀ e s, USBD_RNDIS_SendStatus none e s =
       (none, USBD_StatusTypeDef.usbd_fail, [])) :=
  ⟨fun _ _ => rfl, fun _ _ _ => rfl, fun _ => rfl, fun _ _ _ => rfl,
   fun _ _ _ => rfl, fun _ => rfl, fun _ _ _ _ _ => rfl, fun _ => rfl,
   fun _ _ _ => rfl, fun _ _ _ => rfl, fun _ _ => rfl⟩

/-- C3, counterexample: when the allocation inside USBD_CDC_Init fails, the
returned status is USBD_OK, which the core does not treat as a class
activation failure, and the recorded external calls are exactly the three
endpoint opens with no close, so the endpoints are neither unopened nor
closed. -/
theorem C3_counterexample :
    (USBD_CDC_Init demoCdcItf false demoCdcHandle).2.1 =
      USBD_StatusTypeDef.usbd_ok ∧
    coreTreatsAsActivationFailure
      (USBD_CDC_Init demoCdcItf false demoCdcHandle).2.1 = false ∧
    (USBD_CDC_Init demoCdcItf false demoCdcHandle).2.2 =
      [CdcEffect.openEP CDC_IN_EP USBD_EP_TYPE_BULK CDC_DATA_FS_IN_PACKET_SIZE,
       CdcEffect.openEP CDC_OUT_EP USBD_EP_TYPE_BULK CDC_DATA_FS_OUT_PACKET_SIZE,
       CdcEffect.openEP CDC_CMD_EP USBD_EP_TYPE_INTR CDC_CMD_PACKET_SIZE] :=
  ⟨rfl, rfl, rfl⟩

/-- C3 (amended): on allocation failure every Init returns USBD_OK, which
the core treats as successful activation; the class handle stays NULL so
later entry points degrade to no-ops, but CDC and RNDIS have already opened
their three endpoints (which stay open), while DFU opens none (it uses only
endpoint 0). -/
theorem C3_init_alloc_failure :
    (∀ media buf0, USBD_DFU_Init media false buf0 =
       (none, USBD_StatusTypeDef.usbd_ok, [])) ∧
    (∀ itf g, USBD_CDC_Init itf false g =
       (none, USBD_StatusTypeDef.usbd_ok,
        [CdcEffect.openEP CDC_IN_EP USBD_EP_TYPE_BULK CDC_DATA_FS_IN_PACKET_SIZE,
         CdcEffect.openEP CDC_OUT_EP USBD_EP_TYPE_BULK CDC_DATA_FS_OUT_PACKET_SIZE,
         CdcEffect.openEP CDC_CMD_EP USBD_EP_TYPE_INTR CDC_CMD_PACKET_SIZE])) ∧
    (∀ g, USBD_RNDIS_Init false g =
       (none, USBD_StatusTypeDef.usbd_ok,
        [RndisEffect.openEP RNDIS_IN_EP USBD_EP_TYPE_BULK RNDIS_DATA_FS_MAX_PACKET_SIZE,
         RndisEffect.openEP RNDIS_OUT_EP USBD_EP_TYPE_BULK RNDIS_DATA_FS_MAX_PACKET_SIZE,
         RndisEffect.openEP RNDIS_CMD_EP USBD_EP_TYPE_INTR RNDIS_CMD_PACKET_SIZE])) ∧
    coreTreatsAsActivationFailure USBD_StatusTypeDef.usbd_ok = false :=
  ⟨fun _ _ => rfl, fun _ _ => rfl, fun _ => rfl, rfl⟩

/-- C4: a second Transmit while the first is outstanding returns Busy and
leaves the handle, hence the recorded buffer pointer and length of the
first transfer, untouched: stated for any busy CDC or RNDIS handle, and for
the explicit two-call sequences starting from an idle handle. -/
theorem C4_transmit_busy :
    (∀ (h : USBD_CDC_HandleTypeDef) p l st,
       h.TxState = USBD_StatusTypeDef.usbd_busy →
       USBD_CDC_Transmit (some h) p l st =
         (some h, USBD_StatusTypeDef.usbd_busy, [])) ∧
    (∀ (h : USBD_CDC_HandleTypeDef) p1 l1 st1 p2 l2 st2,
       h.TxState = USBD_StatusTypeDef.usbd_ok →
       USBD_CDC_Transmit (some h) p1 l1 st1 =
         (some { h with
                 TxState := USBD_StatusTypeDef.usbd_busy
                 TxBuffer := p1
                 TxLength := l1 }, st1,
          [CdcEffect.llTransmit CDC_IN_EP p1 l1]) ∧
       USBD_CDC_Transmit (USBD_CDC_Transmit (some h) p1 l1 st1).1 p2 l2 st2 =
         ((USBD_CDC_Transmit (some h) p1 l1 st1).1,
          USBD_StatusTypeDef.usbd_busy, [])) ∧
    (∀ (h : USBD_RNDIS_HandleTypeDef) a ml st,
       h.TxLength ≠ 0 →
       USBD_RNDIS_TransmitMessage (some h) a ml st =
         (some h, USBD_StatusTypeDef.usbd_busy, [])) ∧
    (∀ (h : USBD_RNDIS_HandleTypeDef) a1 ml1 st1 a2 ml2 st2,
       h.TxLength = 0 → ml1 % 2 ^ 16 ≠ 0 →
       USBD_RNDIS_TransmitMessage (some h) a1 ml1 st1 =
         (some { h with TxMsg := some a1, TxLength := ml1 % 2 ^ 16 }, st1,
          [RndisEffect.llTransmit RNDIS_IN_EP ml1]) ∧
       USBD_RNDIS_TransmitMessage
           (USBD_RNDIS_TransmitMessage (some h) a1 ml1 st1).1 a2 ml2 st2 =
         ((USBD_RNDIS_TransmitMessage (some h) a1 ml1 st1).1,
          USBD_StatusTypeDef.usbd_busy, [])) := by
  refine ⟨?_, ?_, ?_, ?_⟩
  · intro h p l st hb
    simp [USBD_CDC_Transmit, hb]
  · intro h p1 l1 st1 p2 l2 st2 hidle
    constructor
    · simp [USBD_CDC_Transmit, hidle]
    · simp [USBD_CDC_Transmit, hidle]
  · intro h a ml st hb
    simp [USBD_RNDIS_TransmitMessage, hb]
  · intro h a1 ml1 st1 a2 ml2 st2 hidle hml
    constructor
    · simp [USBD_RNDIS_TransmitMessage, hidle]
    · have hml' : ml1 % 65536 ≠ 0 := by simpa using hml
      simp [USBD_RNDIS_TransmitMessage, hidle, hml']

/-- C4 witness: the CDC and RNDIS two-call sequences evaluated from the
concrete idle handles (first transfer of 16 bytes at address 0x2000, second
attempt while busy returns Busy and changes nothing). -/
theorem C4_transmit_busy_witness :
    demoCdcHandle.TxState = USBD_StatusTypeDef.usbd_ok ∧
    (USBD_CDC_Transmit
       (USBD_CDC_Transmit (some demoCdcHandle) (some 0x2000) 16
          USBD_StatusTypeDef.usbd_ok).1 (some 0x3000) 8 USBD_StatusTypeDef.usbd_ok =
       ((USBD_CDC_Transmit (some demoCdcHandle) (some 0x2000) 16
           USBD_StatusTypeDef.usbd_ok).1, USBD_StatusTypeDef.usbd_busy, [])) ∧
    demoRndisHandle.TxLength = 0 ∧
    (USBD_RNDIS_TransmitMessage
       (USBD_RNDIS_TransmitMessage (some demoRndisHandle) 0x4000 60
          USBD_StatusTypeDef.usbd_ok).1 0x5000 44 USBD_StatusTypeDef.usbd_ok =
       ((USBD_RNDIS_TransmitMessage (some demoRndisHandle) 0x4000 60
           USBD_StatusTypeDef.usbd_ok).1, USBD_StatusTypeDef.usbd_busy, [])) :=
  ⟨rfl,
   ((C4_transmit_busy.2.1 demoCdcHandle (some 0x2000) 16
       USBD_StatusTypeDef.usbd_ok (some 0x3000) 8
       USBD_StatusTypeDef.usbd_ok rfl).2),
   rfl,
   ((C4_transmit_busy.2.2.2 demoRndisHandle 0x4000 60
       USBD_StatusTypeDef.usbd_ok 0x5000 44
       USBD_StatusTypeDef.usbd_ok rfl (by decide)).2)⟩

/-- C5, counterexample: the claim calls the frame with MessageLength 100,
DataOffset 44, DataLength 56 valid, but the validator of rndis.h demands
MessageLength = DataLength + DataOffset + 8 (the byte offset of the
DataOffset field), and 56 + 44 + 8 = 108, not 100, so this frame is
rejected and no PacketReceived callback fires even with the callback
registered. -/
theorem C5_counterexample :
    RNDIS_VALID_PACKET_MSG ⟨REMOTE_NDIS_PACKET_MSG, 100, 44, 56⟩ 100 = false ∧
    (USBD_RNDIS_DataOut demoRndisItf (some demoRndisHandle) RNDIS_OUT_EP
       ⟨REMOTE_NDIS_PACKET_MSG, 100, 44, 56⟩ 0 100).2.2 = [] ∧
    demoRndisItf.PacketReceivedPresent = true :=
  ⟨rfl, rfl, rfl⟩

/-- C5 (amended): with the PacketReceived callback registered, the inbound
path delivers a frame exactly when the validator accepts it, that is when
the MessageLength field equals the received byte count, the type tag is
REMOTE_NDIS_PACKET_MSG, and MessageLength equals DataLength + DataOffset +
8 (the byte offset of the DataOffset field); the delivered slice starts
DataOffset bytes past the DataOffset field and carries DataLength bytes;
malformed frames are dropped with no callback. The frame of the example is
valid with DataOffset 36 (not 44): 56 + 36 + 8 = 100; with MessageLength 99
and the other fields kept it is rejected. -/
theorem C5_packet_framing :
    (∀ (itf : USBD_RNDIS_ItfTypeDef) (h : USBD_RNDIS_HandleTypeDef) ep msg a r,
       itf.PacketReceivedPresent = true →
       ((USBD_RNDIS_DataOut itf (some h) ep msg a r).2.2 ≠ [] ↔
         RNDIS_VALID_PACKET_MSG msg r = true)) ∧
    (∀ (itf : USBD_RNDIS_ItfTypeDef) (h : USBD_RNDIS_HandleTypeDef) ep msg a r,
       itf.PacketReceivedPresent = true →
       RNDIS_VALID_PACKET_MSG msg r = true →
       (USBD_RNDIS_DataOut itf (some h) ep msg a r).2.2 =
         [RndisEffect.packetReceived
            (a + rndis_offsetof_DataOffset + msg.DataOffset) msg.DataLength]) ∧
    RNDIS_VALID_PACKET_MSG ⟨REMOTE_NDIS_PACKET_MSG, 100, 36, 56⟩ 100 = true ∧
    RNDIS_VALID_PACKET_MSG ⟨REMOTE_NDIS_PACKET_MSG, 100, 44, 56⟩ 100 = false ∧
    (∀ r, RNDIS_VALID_PACKET_MSG ⟨REMOTE_NDIS_PACKET_MSG, 99, 44, 56⟩ r = false) ∧
    RNDIS_VALID_PACKET_MSG ⟨REMOTE_NDIS_PACKET_MSG, 99, 36, 56⟩ 99 = false := by
  refine ⟨?_, ?_, by decide, by decide, ?_, by decide⟩
  · intro itf h ep msg a r hp
    by_cases hv : RNDIS_VALID_PACKET_MSG msg r = true <;>
      simp [USBD_RNDIS_DataOut, hp, hv]
  · intro itf h ep msg a r hp hv
    simp [USBD_RNDIS_DataOut, hp, hv]
  · intro r
    simp [RNDIS_VALID_PACKET_MSG, rndis_offsetof_DataOffset]

/-- C5 witness: the valid frame with DataOffset 36 received at address
0x6000 is delivered as the 56 byte slice at 0x6000 + 8 + 36. -/
theorem C5_packet_framing_witness :
    demoRndisItf.PacketReceivedPresent = true ∧
    RNDIS_VALID_PACKET_MSG ⟨REMOTE_NDIS_PACKET_MSG, 100, 36, 56⟩ 100 = true ∧
    (USBD_RNDIS_DataOut demoRndisItf (some demoRndisHandle) RNDIS_OUT_EP
       ⟨REMOTE_NDIS_PACKET_MSG, 100, 36, 56⟩ 0x6000 100).2.2 =
      [RndisEffect.packetReceived (0x6000 + rndis_offsetof_DataOffset + 36) 56] :=
  ⟨rfl, by decide,
   C5_packet_framing.2.1 demoRndisItf demoRndisHandle RNDIS_OUT_EP
     ⟨REMOTE_NDIS_PACKET_MSG, 100, 36, 56⟩ 0x6000 100 rfl (by decide)⟩

/-- C10: USBD_RNDIS_SendStatus returns USBD_FAIL on every call; on the path
with a non-NULL handle and an idle control endpoint it still assembles the
five word indicate-status message in the shared buffer and pushes the
response-available notification, yet the caller sees USBD_FAIL. -/
theorem C10_sendstatus_always_fail :
    (∀ ph e s, (USBD_RNDIS_SendStatus ph e s).2.1 =
       USBD_StatusTypeDef.usbd_fail) ∧
    (∀ (h : USBD_RNDIS_HandleTypeDef) s,
       (USBD_RNDIS_SendStatus (some h) USBD_EP0_IDLE s).2.2 =
         [USBD_RNDIS_ResponseReady] ∧
       optData (USBD_RNDIS_SendStatus (some h) USBD_EP0_IDLE s).1 0 =
         REMOTE_NDIS_INDICATE_STATUS_MSG ∧
       optData (USBD_RNDIS_SendStatus (some h) USBD_EP0_IDLE s).1 1 =
         rndis_sizeof_IndStatusMsg ∧
       optData (USBD_RNDIS_SendStatus (some h) USBD_EP0_IDLE s).1 2 = s ∧
       optData (USBD_RNDIS_SendStatus (some h) USBD_EP0_IDLE s).1 3 = 0 ∧
       optData (USBD_RNDIS_SendStatus (some h) USBD_EP0_IDLE s).1 4 = 0) := by
  constructor
  · intro ph e s
    rcases ph with _ | h
    · rfl
    · by_cases he : e = USBD_EP0_IDLE <;> simp [USBD_RNDIS_SendStatus, he]
  · intro h s
    exact ⟨rfl, rfl, rfl, rfl, rfl, rfl⟩

/-- C6: a QUERY dispatch of OID_GEN_SUPPORTED_LIST with n registered OIDs
answers with MessageType QUERY_CMPLT, Status Success, InfoBufferLength
4 * n bytes, the payload (at word offset 6, the info buffer) equal to the
registered OID values in registration order, MessageLength equal to the
24 byte completion header plus the payload length, and pushes the
response-available notification. -/
theorem C6_supported_list :
    ∀ (itf : USBD_RNDIS_ItfTypeDef) (h : USBD_RNDIS_HandleTypeDef),
      h.data 1 = h.MsgLength →
      h.data 0 = REMOTE_NDIS_QUERY_MSG →
      h.data 3 = OID_GEN_SUPPORTED_LIST →
      optData (USBD_RNDIS_EP0_RxReady itf (some h)).1 0 =
        REMOTE_NDIS_QUERY_CMPLT ∧
      optData (USBD_RNDIS_EP0_RxReady itf (some h)).1 3 =
        RNDIS_STATUS_SUCCESS ∧
      optData (USBD_RNDIS_EP0_RxReady itf (some h)).1 4 =
        itf.ObjectInfo.length * 4 ∧
      optData (USBD_RNDIS_EP0_RxReady itf (some h)).1 1 =
        rndis_sizeof_QueryCmplt + itf.ObjectInfo.length * 4 ∧
      (∀ i, i < itf.ObjectInfo.length →
        optData (USBD_RNDIS_EP0_RxReady itf (some h)).1 (6 + i) =
          (itf.ObjectInfo.map RNDIS_ObjectInfoType.Oid).getD i 0) ∧
      (USBD_RNDIS_EP0_RxReady itf (some h)).2.2 = [USBD_RNDIS_ResponseReady] := by
  intro itf h h1 h0 h3
  have hni : ¬(h.data 0 = REMOTE_NDIS_INITIALIZE_MSG) := by
    rw [h0]; decide
  have hbranch : USBD_RNDIS_EP0_RxReady itf (some h) =
      (some { h with data := queryCmpltData itf h },
       USBD_StatusTypeDef.usbd_ok, [USBD_RNDIS_ResponseReady]) := by
    simp [USBD_RNDIS_EP0_RxReady, h1, h0, h3, hni, queryCmpltData,
      REMOTE_NDIS_QUERY_MSG, REMOTE_NDIS_INITIALIZE_MSG]
  rw [hbranch]
  refine ⟨?_, ?_, ?_, ?_, ?_, rfl⟩
  · show queryCmpltData itf h 0 = REMOTE_NDIS_QUERY_CMPLT
    simp only [queryCmpltData, setW]
    norm_num
    rw [writeWords_get_below _ _ _ _ (by norm_num)]
    simp [setW]
  · show queryCmpltData itf h 3 = RNDIS_STATUS_SUCCESS
    simp only [queryCmpltData, setW]
    norm_num
  · show queryCmpltData itf h 4 = itf.ObjectInfo.length * 4
    simp only [queryCmpltData, setW]
    norm_num
  · show queryCmpltData itf h 1 =
      rndis_sizeof_QueryCmplt + itf.ObjectInfo.length * 4
    simp only [queryCmpltData, setW]
    norm_num
  · intro i hi
    show queryCmpltData itf h (6 + i) =
      (itf.ObjectInfo.map RNDIS_ObjectInfoType.Oid).getD i 0
    have hne1 : ¬(6 + i = 1) := by omega
    have hne3 : ¬(6 + i = 3) := by omega
    have hne4 : ¬(6 + i = 4) := by omega
    have hlen : i < (itf.ObjectInfo.map RNDIS_ObjectInfoType.Oid).length := by
      simpa using hi
    simp only [queryCmpltData, setW, hne1, hne3, hne4, if_false, ite_false]
    rw [writeWords_get _ _ _ _ hlen]

/-- C6 witness: with the three entry table the response to the
supported-list query carries Status Success, InfoBufferLength 12,
MessageLength 36 and the three OIDs in registration order. -/
theorem C6_supported_list_witness :
    demoRndisQueryHandle.data 1 = demoRndisQueryHandle.MsgLength ∧
    optData (USBD_RNDIS_EP0_RxReady demoRndisItf (some demoRndisQueryHandle)).1 3 =
      RNDIS_STATUS_SUCCESS ∧
    optData (USBD_RNDIS_EP0_RxReady demoRndisItf (some demoRndisQueryHandle)).1 4 =
      12 ∧
    optData (USBD_RNDIS_EP0_RxReady demoRndisItf (some demoRndisQueryHandle)).1 1 =
      36 ∧
    optData (USBD_RNDIS_EP0_RxReady demoRndisItf (some demoRndisQueryHandle)).1 6 =
      0x00010106 ∧
    optData (USBD_RNDIS_EP0_RxReady demoRndisItf (some demoRndisQueryHandle)).1 7 =
      0x0001010A ∧
    optData (USBD_RNDIS_EP0_RxReady demoRndisItf (some demoRndisQueryHandle)).1 8 =
      0x0001010E := by
  have hc := C6_supported_list demoRndisItf demoRndisQueryHandle rfl rfl rfl
  refine ⟨rfl, hc.2.1, ?_, ?_, ?_, ?_, ?_⟩
  · simpa [demoRndisItf, demoOidTable] using hc.2.2.1
  · simpa [demoRndisItf, demoOidTable, rndis_sizeof_QueryCmplt] using hc.2.2.2.1
  · simpa [demoRndisItf, demoOidTable] using hc.2.2.2.2.1 0 (by simp [demoRndisItf, demoOidTable])
  · simpa [demoRndisItf, demoOidTable] using hc.2.2.2.2.1 1 (by simp [demoRndisItf, demoOidTable])
  · simpa [demoRndisItf, demoOidTable] using hc.2.2.2.2.1 2 (by simp [demoRndisItf, demoOidTable])

/-- C9: the state byte dev_status[4] of the wire status record equals the
protocol state dev_state after Init and after every request handler and the
EP0 data-stage callback, so GETSTATUS and GETSTATE always report the same
state. -/
theorem C9_status_state :
    (∀ media allocOk buf0 h,
       (USBD_DFU_Init media allocOk buf0).1 = some h → DFU_statusStateInv h) ∧
    (∀ h v l, DFU_statusStateInv h → DFU_statusStateInv (DFU_Download h v l).1) ∧
    (∀ media h v l, DFU_statusStateInv h →
       DFU_statusStateInv (DFU_Upload media h v l).1) ∧
    (∀ media h, DFU_statusStateInv h →
       DFU_statusStateInv (DFU_GetStatus media h).1) ∧
    (∀ h, DFU_statusStateInv h → DFU_statusStateInv (DFU_ClearStatus h).1) ∧
    (∀ h, DFU_statusStateInv h → DFU_statusStateInv (DFU_GetState h).1) ∧
    (∀ h, DFU_statusStateInv h → DFU_statusStateInv (DFU_Abort h).1) ∧
    (∀ h v, DFU_statusStateInv h → DFU_statusStateInv (DFU_Detach h v).1) ∧
    (∀ h, DFU_statusStateInv h → DFU_statusStateInv (DFU_Leave h).1) ∧
    (∀ media h, DFU_statusStateInv h →
       DFU_statusStateInv (DFU_EP0_TxReady_body media h).1) := by
  refine ⟨?_, ?_, ?_, ?_, ?_, ?_, ?_, ?_, ?_, ?_⟩
  · intro media allocOk buf0 h he
    cases allocOk <;> simp [USBD_DFU_Init] at he
    subst he
    rfl
  · intro h v l hi
    unfold DFU_statusStateInv at *
    simp only [DFU_Download]
    split_ifs <;> simp_all
  · intro media h v l hi
    unfold DFU_statusStateInv at *
    simp only [DFU_Upload]
    split_ifs <;> simp_all
  · intro media h hi
    unfold DFU_statusStateInv at *
    simp only [DFU_GetStatus]
    split_ifs <;> simp_all
  · intro h hi
    unfold DFU_statusStateInv at *
    simp only [DFU_ClearStatus]
    split_ifs <;> simp_all
  · intro h hi
    exact hi
  · intro h hi
    unfold DFU_statusStateInv at *
    simp only [DFU_Abort]
    split_ifs <;> simp_all
  · intro h v hi
    unfold DFU_statusStateInv at *
    simp only [DFU_Detach]
    split_ifs <;> simp_all
  · intro h hi
    unfold DFU_statusStateInv at *
    simp only [DFU_Leave]
    split_ifs <;> simp_all
  · intro media h hi
    unfold DFU_statusStateInv at *
    simp only [DFU_EP0_TxReady_body, DFU_Leave]
    split_ifs <;> simp_all

/-- C9 witness: the invariant evaluated right after Init and after the
sequence DNLOAD block 2 followed by GETSTATUS on the concrete medium. -/
theorem C9_status_state_witness :
    DFU_statusStateInv demoDfuInitHandle ∧
    DFU_statusStateInv
      (DFU_GetStatus demoMedia (DFU_Download demoDfuInitHandle 2 64).1).1 :=
  ⟨C9_status_state.1 demoMedia true [] demoDfuInitHandle rfl,
   C9_status_state.2.2.2.1 demoMedia (DFU_Download demoDfuInitHandle 2 64).1
     (C9_status_state.2.1 demoDfuInitHandle 2 64
       (C9_status_state.1 demoMedia true [] demoDfuInitHandle rfl))⟩

end STM32XPD
